import Mathlib

/-!
# Earth impact prototype: surface model, impact simulator and geodesy

A shallow embedding of the browser prototypes `main.js` and `main copy N.js`.
JavaScript numbers are modelled as real numbers (the properties below are the exact,
real-arithmetic ones), so the definitions that divide, compare or take square roots
of reals are not executable; everything else is plain data. Where `NaN` or an infinity
can occur (the CSV loader and the registry search of `main copy 4.js`, the division
`0/0` of `posToLatLon`) numbers are values of `JsNum`. Where the rounding of a computed
distance decides which record a search returns, the search is stated for the distances
as the program computes them, given as a function (`findNearestCountryWith`,
`findNearestCountry4With`).

The mutable top-level variables of `main.js` are gathered in `State`; every event
handler is a function `State → State` and the browser's event loop is `run`.
Objects created with `new` receive a fresh identifier from `State.nextId`.
-/

namespace Earth

noncomputable section

/-! ## three.js `Vector3` -/

/-- A `THREE.Vector3`. -/
structure Vec3 where
  x : ℝ
  y : ℝ
  z : ℝ

namespace Vec3

/-- The result of `new THREE.Vector3()`. -/
def zero : Vec3 := ⟨0, 0, 0⟩

/-- The method `a.add(b)`: componentwise sum. -/
def add (a b : Vec3) : Vec3 := ⟨a.x + b.x, a.y + b.y, a.z + b.z⟩

/-- The method `v.subVectors(a, b)`: the vector `a - b`. -/
def subVectors (a b : Vec3) : Vec3 := ⟨a.x - b.x, a.y - b.y, a.z - b.z⟩

/-- The method `v.multiplyScalar(s)`. -/
def multiplyScalar (v : Vec3) (s : ℝ) : Vec3 := ⟨v.x * s, v.y * s, v.z * s⟩

/-- The method `v.length()`: `Math.sqrt(x*x + y*y + z*z)`. -/
def length (v : Vec3) : ℝ := Real.sqrt (v.x * v.x + v.y * v.y + v.z * v.z)

/-- The method `v.divideScalar(s)`, which three.js defines as `multiplyScalar(1 / s)`. -/
def divideScalar (v : Vec3) (s : ℝ) : Vec3 := v.multiplyScalar (1 / s)

/-- The method `v.normalize()`, which three.js defines as
`divideScalar(this.length() || 1)`: the zero vector is left as it is. -/
def normalize (v : Vec3) : Vec3 :=
  v.divideScalar (if v.length = 0 then 1 else v.length)

/-- The method `a.distanceTo(b)`, the length of `a - b`. -/
def distanceTo (a b : Vec3) : ℝ := (subVectors a b).length

end Vec3

/-! ## Scene graph and DOM -/

/-- What a scene object is: the kinds of `Object3D` that `main.js` adds to the scene. -/
inductive ObjKind where
  | light
  | earth
  | pin
  | asteroid
  deriving DecidableEq, Repr

/-- An object of the scene graph: its identity and its kind. -/
structure SceneObj where
  id : Nat
  kind : ObjKind
  deriving DecidableEq, Repr

/-- The value of `waypoint` when it is not `null`: `{mesh, el, position}`. -/
structure Waypoint where
  mesh : SceneObj
  el : Nat
  position : Vec3

/-- The value of `asteroid` when it is not `null`: the mesh, its `position` and
`userData.target`. -/
structure Asteroid where
  mesh : SceneObj
  position : Vec3
  target : Vec3

/-- The mutable state of `main.js`: the variables of lines 48-50, the children of `scene`
and of `waypointContainer`, and the uniforms of `earthMat` that `animate` writes.
The uniform `craterPos` holds the very `Vector3` object named `craterPos`, so it has no
field of its own. -/
structure State where
  waypoint : Option Waypoint
  asteroid : Option Asteroid
  craterGrowing : Bool
  craterPos : Vec3
  craterRadius : ℝ
  craterDepth : ℝ
  craterTargetDepth : ℝ
  scene : List SceneObj
  labels : List Nat
  uCraterRadius : ℝ
  uCraterDepth : ℝ
  uDisplacementScale : ℝ
  nextId : Nat

/-- The state when `animate` is first called: the two lights and the earth mesh are in the
scene, `s0` is `parseFloat(topoSlider.value)` at the time the textures were loaded. -/
def init (s0 : ℝ) : State :=
  { waypoint := none
    asteroid := none
    craterGrowing := false
    craterPos := Vec3.zero
    craterRadius := 0
    craterDepth := 0
    craterTargetDepth := 0
    scene := [⟨0, .light⟩, ⟨1, .light⟩, ⟨2, .earth⟩]
    labels := []
    uCraterRadius := 0
    uCraterDepth := 0
    uDisplacementScale := s0
    nextId := 3 }

/-- The call `scene.remove(obj)`: the object is spliced out of the children. -/
def sceneRemove (scene : List SceneObj) (obj : SceneObj) : List SceneObj := scene.erase obj

/-- The call `scene.add(obj)` for an object that has no parent: it is pushed. -/
def sceneAdd (scene : List SceneObj) (obj : SceneObj) : List SceneObj := scene ++ [obj]

/-! ## Event handlers of `main.js` -/

/-- The `mousedown` handler (lines 141-166). `hit` is `intersects[0].point` when the ray
through the pointer meets the earth mesh, `none` when `intersects` is empty. The shape and
place of the pin and the text and style of the label are not modelled. -/
def mousedown (σ : State) (button : Nat) (hit : Option Vec3) : State :=
  if button ≠ 0 then σ
  else
    match hit with
    | none => σ
    | some point =>
      let labels1 := match σ.waypoint with
        | some wp => σ.labels.erase wp.el
        | none => σ.labels
      let scene1 := match σ.waypoint with
        | some wp => sceneRemove σ.scene wp.mesh
        | none => σ.scene
      let mesh : SceneObj := ⟨σ.nextId, .pin⟩
      let el : Nat := σ.nextId + 1
      { σ with
        scene := sceneAdd scene1 mesh
        labels := labels1 ++ [el]
        waypoint := some ⟨mesh, el, point⟩
        nextId := σ.nextId + 2 }

/-- The click handler of the launch button (lines 169-188). `camera` is `camera.position`
and `slider` is `parseFloat(topoSlider.value)` at the time of the click. -/
def launch (σ : State) (camera : Vec3) (slider : ℝ) : State :=
  match σ.waypoint with
  | none => σ
  | some wp =>
    let scene1 := match σ.asteroid with
      | some a => sceneRemove σ.scene a.mesh
      | none => σ.scene
    let mesh : SceneObj := ⟨σ.nextId, .asteroid⟩
    let dir := (Vec3.subVectors wp.position camera).normalize
    let position := camera.add (dir.multiplyScalar 5000)
    { σ with
      asteroid := some ⟨mesh, position, wp.position⟩
      scene := sceneAdd scene1 mesh
      nextId := σ.nextId + 1
      craterPos := wp.position
      craterRadius := slider * 4
      craterTargetDepth := 50
      craterDepth := 0
      craterGrowing := true }

/-- The block "Asteroid motion" of `animate` (lines 201-212). -/
def asteroidMotion (σ : State) : State :=
  match σ.asteroid with
  | none => σ
  | some a =>
    let dir := Vec3.subVectors a.target a.position
    let dist := dir.length
    let dir := dir.normalize
    let speed : ℝ := 50
    if dist > 10 then
      { σ with asteroid := some { a with position := a.position.add (dir.multiplyScalar speed) } }
    else
      { σ with asteroid := none }

/-- The block "Animate crater depth" of `animate` (lines 214-221). -/
def craterAnimation (σ : State) : State :=
  if σ.craterGrowing then
    let depth := σ.craterDepth + 1
    if depth ≥ σ.craterTargetDepth then
      { σ with
        craterDepth := σ.craterTargetDepth
        craterGrowing := false
        uCraterRadius := σ.craterRadius
        uCraterDepth := σ.craterTargetDepth }
    else
      { σ with
        craterDepth := depth
        uCraterRadius := σ.craterRadius
        uCraterDepth := depth }
  else σ

/-- One call of `animate` (lines 191-226), one tick of the frame loop. `slider` is
`parseFloat(topoSlider.value)` on that frame. Positioning the label on screen and
rendering change none of the variables modelled here. -/
def animate (σ : State) (slider : ℝ) : State :=
  { craterAnimation (asteroidMotion σ) with uDisplacementScale := slider }

/-- The events the page reacts to. -/
inductive Event where
  | mousedown (button : Nat) (hit : Option Vec3)
  | launch (camera : Vec3) (slider : ℝ)
  | animate (slider : ℝ)

/-- The handler run for one event. -/
def step (σ : State) : Event → State
  | .mousedown button hit => mousedown σ button hit
  | .launch camera slider => launch σ camera slider
  | .animate slider => animate σ slider

/-- The state after a sequence of events, oldest first. -/
def run (σ : State) (es : List Event) : State := es.foldl step σ

/-- Whether an event is a frame tick. -/
def Event.isTick : Event → Bool
  | .animate _ => true
  | _ => false

/-- Whether an event is a click on the launch button. -/
def Event.isLaunch : Event → Bool
  | .launch _ _ => true
  | _ => false

/-- The number of frame ticks among the events. -/
def ticks (es : List Event) : Nat := es.countP Event.isTick

/-- The number of asteroid meshes among the children of the scene. -/
def asteroidMeshes (scene : List SceneObj) : Nat :=
  scene.countP (fun o => o.kind = ObjKind.asteroid)

/-- The crater invariant `0 ≤ craterDepth ≤ craterTargetDepth`. -/
def CraterInv (σ : State) : Prop :=
  0 ≤ σ.craterDepth ∧ σ.craterDepth ≤ σ.craterTargetDepth

/-- The state after a first primary click whose ray meets the sphere (radius 1000) at
`(0, 0, 1000)`, from the initial state with the slider at 10. -/
def stateClicked : State := mousedown (init 10) 0 (some ⟨0, 0, 1000⟩)

/-! ## Geodesy -/

/-- The function `THREE.MathUtils.radToDeg`: multiplication by `RAD2DEG = 180 / Math.PI`. -/
def radToDeg (radians : ℝ) : ℝ := radians * (180 / Real.pi)

/-- The function `THREE.MathUtils.degToRad`: multiplication by `DEG2RAD = Math.PI / 180`. -/
def degToRad (degrees : ℝ) : ℝ := degrees * (Real.pi / 180)

/-- The function `Math.atan2(y, x)`: the angle in `(-π, π]` of the point `(x, y)` of the
plane, that is the argument of `x + y i`; it is `0` at the origin. -/
def atan2 (y x : ℝ) : ℝ := Complex.arg ⟨x, y⟩

/-- The object `{lat, lon}`, both in degrees. -/
structure LatLon where
  lat : ℝ
  lon : ℝ

/-- The function `posToLatLon` of `main.js` (lines 128-134), the same in `main copy 5.js`
and `main copy 6.js`. The real-number reading is meant for non-zero vectors: for the zero
vector JavaScript evaluates `0/0`. -/
def posToLatLon (pos : Vec3) : LatLon :=
  let r := pos.length
  { lat := radToDeg (Real.arcsin (pos.y / r))
    lon := radToDeg (atan2 pos.z pos.x) }

/-- The point rebuilt from a latitude and a longitude in degrees and a radius, as the
round-trip property words it: `(r cos lat cos lon, r sin lat, r cos lat sin lon)`. -/
def latLonToPos (lat lon r : ℝ) : Vec3 :=
  { x := r * Real.cos (degToRad lat) * Real.cos (degToRad lon)
    y := r * Real.sin (degToRad lat)
    z := r * Real.cos (degToRad lat) * Real.sin (degToRad lon) }

/-- The function `haversine` of `main copy 6.js` (lines 145-151). -/
def haversine (lat1 lon1 lat2 lon2 : ℝ) : ℝ :=
  let R : ℝ := 6371
  let dLat := degToRad (lat2 - lat1)
  let dLon := degToRad (lon2 - lon1)
  let a := Real.sin (dLat / 2) * Real.sin (dLat / 2)
    + Real.cos (degToRad lat1) * Real.cos (degToRad lat2)
      * Real.sin (dLon / 2) * Real.sin (dLon / 2)
  R * 2 * atan2 (Real.sqrt a) (Real.sqrt (1 - a))

/-- The intermediate value `a` of `haversine` (`main copy 6.js`, line 149). -/
def haversineA (lat1 lon1 lat2 lon2 : ℝ) : ℝ :=
  Real.sin (degToRad (lat2 - lat1) / 2) * Real.sin (degToRad (lat2 - lat1) / 2)
    + Real.cos (degToRad lat1) * Real.cos (degToRad lat2)
      * Real.sin (degToRad (lon2 - lon1) / 2) * Real.sin (degToRad (lon2 - lon1) / 2)

/-- The function `haversine` of `main copy 5.js` (lines 113-120). -/
def haversine5 (lat1 lon1 lat2 lon2 : ℝ) : ℝ :=
  let R : ℝ := 6371
  let dLat := degToRad (lat2 - lat1)
  let dLon := degToRad (lon2 - lon1)
  let a := Real.sin (dLat / 2) ^ 2
    + Real.cos (degToRad lat1) * Real.cos (degToRad lat2) * Real.sin (dLon / 2) ^ 2
  let c := 2 * atan2 (Real.sqrt a) (Real.sqrt (1 - a))
  R * c

/-! ## JavaScript numbers with `NaN` and the infinities -/

/-- A JavaScript number, for the places where `NaN` and the infinities matter: the filter
of the CSV rows, the registry search of `main copy 4.js` and the division `0/0`. -/
inductive JsNum where
  | nan
  | posInf
  | negInf
  | fin (x : ℝ)

namespace JsNum

/-- The global function `isNaN` on a number. -/
def isNaN : JsNum → Bool
  | nan => true
  | _ => false

/-- The global function `isFinite` on a number. -/
def isFinite : JsNum → Bool
  | fin _ => true
  | _ => false

/-- The operator `a - b` on numbers. -/
def sub : JsNum → JsNum → JsNum
  | nan, _ => nan
  | _, nan => nan
  | fin x, fin y => fin (x - y)
  | fin _, posInf => negInf
  | fin _, negInf => posInf
  | posInf, posInf => nan
  | posInf, _ => posInf
  | negInf, negInf => nan
  | negInf, _ => negInf

/-- The function `Math.hypot(a, b)`: `+Infinity` when an argument is infinite, else `NaN`
when one is `NaN`, else the square root of the sum of the squares. -/
def hypot : JsNum → JsNum → JsNum
  | posInf, _ => posInf
  | negInf, _ => posInf
  | _, posInf => posInf
  | _, negInf => posInf
  | nan, _ => nan
  | _, nan => nan
  | fin x, fin y => fin (Real.sqrt (x * x + y * y))

/-- The comparison `a < b` on numbers; it is false when an operand is `NaN`. -/
def lt : JsNum → JsNum → Prop
  | fin x, fin y => x < y
  | fin _, posInf => True
  | negInf, fin _ => True
  | negInf, posInf => True
  | _, _ => False

instance ltDecidable : DecidableRel lt := fun a b => by
  cases a <;> cases b <;> unfold lt <;> infer_instance

/-- The quotient `x / r` of two finite numbers where `r` is a length, so that a zero `r`
is `+0`: `0/0` is `NaN` and `x/0` is an infinity of the sign of `x`. -/
def divLength (x r : ℝ) : JsNum :=
  if r = 0 then
    if x = 0 then nan else if 0 < x then posInf else negInf
  else fin (x / r)

/-- The function `Math.asin`: `NaN` outside `[-1, 1]`. -/
def asin : JsNum → JsNum
  | fin x => if -1 ≤ x ∧ x ≤ 1 then fin (Real.arcsin x) else nan
  | _ => nan

/-- The function `THREE.MathUtils.radToDeg` on a number that may be `NaN` or infinite: the
product by the positive constant `RAD2DEG`. -/
def radToDeg : JsNum → JsNum
  | fin x => fin (x * (180 / Real.pi))
  | nan => nan
  | posInf => posInf
  | negInf => negInf

end JsNum

/-- The object `{lat, lon}` when its fields may be `NaN`. -/
structure LatLonJs where
  lat : JsNum
  lon : JsNum

/-- The function `posToLatLon` of `main.js` (lines 128-134) with the division and
`Math.asin` of JavaScript, for the zero vector, where `length()` is `Math.sqrt(0)`, exactly
0 (for a vector so small or so large that the squares under the root underflow or
overflow, `length()` is not the real length used here). The function has no `throw`: it
returns an object for every argument. -/
def posToLatLonJs (pos : Vec3) : LatLonJs :=
  let r := pos.length
  { lat := JsNum.radToDeg (JsNum.asin (JsNum.divLength pos.y r))
    lon := JsNum.radToDeg (JsNum.fin (atan2 pos.z pos.x)) }

/-! ## Nearest-location search -/

/-- The loop of `findNearestCountry`, from index 1 on: `closest` and `minDist` are the
loop variables, the list holds the records not yet visited, `dist` is the distance of a
record to the query and `lt` the comparison `d < minDist`. -/
def scanNearest {α D : Type} (lt : D → D → Prop) [DecidableRel lt] (dist : α → D) :
    α → D → List α → α
  | closest, _, [] => closest
  | closest, minDist, r :: rs =>
    if lt (dist r) minDist then scanNearest lt dist r (dist r) rs
    else scanNearest lt dist closest minDist rs

/-- A record of `countries.json`, as `main copy 5.js` and `main copy 6.js` read it. -/
structure CountryRecord where
  Country : String
  Latitude : ℝ
  Longitude : ℝ

/-- The function `findNearestCountry` of `main copy 6.js` (lines 152-160). -/
def findNearestCountry (countriesData : List CountryRecord) (lat lon : ℝ) : String :=
  match countriesData with
  | [] => "Unknown"
  | closest :: rest =>
    (scanNearest (fun a b : ℝ => a < b)
      (fun r => haversine lat lon r.Latitude r.Longitude) closest
      (haversine lat lon closest.Latitude closest.Longitude) rest).Country

/-- The function `findNearestCountry` of `main copy 5.js` (lines 122-134). -/
def findNearestCountry5 (countriesData : List CountryRecord) (lat lon : ℝ) : String :=
  match countriesData with
  | [] => "Unknown"
  | closest :: rest =>
    (scanNearest (fun a b : ℝ => a < b)
      (fun r => haversine5 lat lon r.Latitude r.Longitude) closest
      (haversine5 lat lon closest.Latitude closest.Longitude) rest).Country

/-- The function `findNearestCountry` of `main copy 6.js` (lines 152-160) and of
`main copy 5.js` (lines 122-134) with the distances as the program computes them: `dist r`
stands for the number that `haversine(lat, lon, r.Latitude, r.Longitude)` evaluates to for
the record `r`, `NaN` included, and `d < minDist` is the comparison of JavaScript. -/
def findNearestCountryWith (dist : CountryRecord → JsNum)
    (countriesData : List CountryRecord) : String :=
  match countriesData with
  | [] => "Unknown"
  | closest :: rest => (scanNearest JsNum.lt dist closest (dist closest) rest).Country

/-! ## The variant `main copy 4.js` -/

/-- A row of `result.data` as the loader reads it: `Country` is `row['Country']`
(`none` when the column is missing), `Latitude` and `Longitude` are the numbers that
`parseFloat` returns for the two coordinate fields. -/
structure CsvRow where
  Country : Option String
  Latitude : JsNum
  Longitude : JsNum

/-- An element of `countriesData` in `main copy 4.js`: `{country, lat, lon}`; `country`
is `none` when it is `undefined`. -/
structure Row4 where
  country : Option String
  lat : JsNum
  lon : JsNum

/-- Whether a character is white space for `String.prototype.trim`: the `WhiteSpace` and
`LineTerminator` code points of ECMAScript (tab, line feed, vertical tab, form feed,
carriage return, space, no-break space, the space separators U+1680, U+2000 to U+200A,
U+202F, U+205F, U+3000, the separators U+2028 and U+2029, and U+FEFF). -/
def isJsWhitespace (c : Char) : Bool :=
  decide (c.toNat = 0x9) || decide (c.toNat = 0xA) || decide (c.toNat = 0xB) ||
  decide (c.toNat = 0xC) || decide (c.toNat = 0xD) || decide (c.toNat = 0x20) ||
  decide (c.toNat = 0xA0) || decide (c.toNat = 0x1680) ||
  (decide (0x2000 ≤ c.toNat) && decide (c.toNat ≤ 0x200A)) ||
  decide (c.toNat = 0x2028) || decide (c.toNat = 0x2029) || decide (c.toNat = 0x202F) ||
  decide (c.toNat = 0x205F) || decide (c.toNat = 0x3000) || decide (c.toNat = 0xFEFF)

/-- The method `trim` of a string: the white space at both ends is removed. The white
space characters all lie in the basic plane, so trimming the characters of the text is
trimming its UTF-16 code units. -/
def jsTrim (s : String) : String :=
  String.mk ((s.data.dropWhile isJsWhitespace).reverse.dropWhile isJsWhitespace).reverse

/-- Whether a value `string | undefined` is truthy: a non-empty string. -/
def truthy : Option String → Bool
  | some s => s ≠ ""
  | none => false

/-- The `map` and `filter` of the CSV loader (`main copy 4.js`, lines 39-43). -/
def loadCountries (data : List CsvRow) : List Row4 :=
  (data.map fun row =>
      ({ country := row.Country.map jsTrim
         lat := row.Latitude
         lon := row.Longitude } : Row4)).filter
    fun row => truthy row.country && !row.lat.isNaN && !row.lon.isNaN

/-- The distance that `findNearestCountry` of `main copy 4.js` gives a record:
`Math.hypot(lat - r.lat, lon - r.lon)`. -/
def planarDistance (lat lon : ℝ) (r : Row4) : JsNum :=
  JsNum.hypot (JsNum.sub (JsNum.fin lat) r.lat) (JsNum.sub (JsNum.fin lon) r.lon)

/-- The function `findNearestCountry` of `main copy 4.js` (lines 109-121). The result is
`closest.country`, `none` when that is `undefined`. -/
def findNearestCountry4 (countriesData : List Row4) (lat lon : ℝ) : Option String :=
  match countriesData with
  | [] => some "Unknown"
  | closest :: rest =>
    (scanNearest JsNum.lt (planarDistance lat lon) closest
      (planarDistance lat lon closest) rest).country

/-- The function `findNearestCountry` of `main copy 4.js` (lines 109-121) with the
distances as the program computes them: `dist r` stands for the number that the
expression `Math.hypot(lat - r.lat, lon - r.lon)` evaluates to for the record `r`,
rounding included, whatever it is. -/
def findNearestCountry4With (dist : Row4 → JsNum) (countriesData : List Row4) :
    Option String :=
  match countriesData with
  | [] => some "Unknown"
  | closest :: rest => (scanNearest JsNum.lt dist closest (dist closest) rest).country

/-- The function `posToLatLon` of `main copy 3.js` (lines 91-96) and `main copy 4.js`
(lines 94-99): the longitude is negated. -/
def posToLatLon4 (pos : Vec3) : LatLon :=
  let radius := pos.length
  { lat := radToDeg (Real.arcsin (pos.y / radius))
    lon := -radToDeg (atan2 pos.z pos.x) }

/-- A label of `main copy 4.js`, a child of `waypointContainer`: its identity and the
values its text shows (the rounding to two decimals is not modelled). -/
structure Label4 where
  id : Nat
  lat : ℝ
  lon : ℝ
  country : Option String

/-- An element of `waypoints` in `main copy 4.js`: `{el, position}`, `el` being the
identity of the label. -/
structure Waypoint4 where
  el : Nat
  position : Vec3

/-- The mutable state of `main copy 4.js`. Times are in milliseconds, as `Date.now()`
gives them. -/
structure State4 where
  countriesData : List Row4
  csvLoaded : Bool
  waypoints : List Waypoint4
  labels : List Label4
  mouseDownTime : Int
  nextId : Nat

/-- The state of `main copy 4.js` before any event. -/
def init4 : State4 :=
  { countriesData := []
    csvLoaded := false
    waypoints := []
    labels := []
    mouseDownTime := 0
    nextId := 0 }

/-- The callback of the CSV fetch (lines 37-46). -/
def csvLoad (σ : State4) (data : List CsvRow) : State4 :=
  { σ with countriesData := loadCountries data, csvLoaded := true }

/-- The `mousedown` handler of `main copy 4.js` (line 125); `now` is `Date.now()`. -/
def mousedown4 (σ : State4) (button : Nat) (now : Int) : State4 :=
  if button = 0 then { σ with mouseDownTime := now } else σ

/-- The call `el.remove()`: the label leaves the container. -/
def removeLabel (labels : List Label4) (el : Nat) : List Label4 :=
  labels.filter fun l => l.id ≠ el

/-- The `mouseup` handler of `main copy 4.js` (lines 126-157); `now` is `Date.now()` and
`hit` is `intersects[0].point` when the ray meets the earth mesh. -/
def mouseup4 (σ : State4) (button : Nat) (now : Int) (hit : Option Vec3) : State4 :=
  if !σ.csvLoaded || button ≠ 0 then σ
  else if now - σ.mouseDownTime > 200 then σ
  else
    match hit with
    | none => σ
    | some point =>
      let labels1 := σ.waypoints.foldl (fun ls wp => removeLabel ls wp.el) σ.labels
      let ll := posToLatLon4 point
      let country := findNearestCountry4 σ.countriesData ll.lat ll.lon
      let el : Nat := σ.nextId
      { σ with
        labels := labels1 ++ [⟨el, ll.lat, ll.lon, country⟩]
        waypoints := [⟨el, point⟩]
        nextId := σ.nextId + 1 }

/-- The events `main copy 4.js` reacts to. Its `animate` only places the labels on the
screen and changes none of the variables of `State4`. -/
inductive Event4 where
  | csvLoad (data : List CsvRow)
  | mousedown (button : Nat) (now : Int)
  | mouseup (button : Nat) (now : Int) (hit : Option Vec3)
  | animate

/-- The handler of `main copy 4.js` run for one event. -/
def step4 (σ : State4) : Event4 → State4
  | .csvLoad data => csvLoad σ data
  | .mousedown button now => mousedown4 σ button now
  | .mouseup button now hit => mouseup4 σ button now hit
  | .animate => σ

/-- The state of `main copy 4.js` after a sequence of events, oldest first. -/
def run4 (σ : State4) (es : List Event4) : State4 := es.foldl step4 σ

/-! ## Surface model -/

/-- The crater term of the vertex shader of `main.js` (lines 90-94), the same in
`main copy 6.js` (lines 94-98): `dist` is the distance of the vertex to `craterPos`. -/
def craterEffect (dist craterRadius craterDepth : ℝ) : ℝ :=
  if dist < craterRadius then
    let x := dist / craterRadius
    craterDepth * (1 - x * x)
  else 0

/-- The pin meshes among the children of the scene. -/
def pinMeshes (scene : List SceneObj) : List SceneObj :=
  scene.filter fun o => o.kind = ObjKind.pin

/-- What ties the scene and the label container to the variable `waypoint` in `main.js`:
the pins in the scene and the labels in the container are exactly those of the current
waypoint, whose identifiers are older than `nextId`; the live asteroid's mesh is of kind
asteroid. -/
def WaypointInv (σ : State) : Prop :=
  (match σ.waypoint with
    | none => pinMeshes σ.scene = [] ∧ σ.labels = []
    | some wp => wp.mesh.kind = ObjKind.pin ∧ wp.mesh.id < σ.nextId ∧ wp.el < σ.nextId ∧
        pinMeshes σ.scene = [wp.mesh] ∧ σ.labels = [wp.el]) ∧
  (∀ a, σ.asteroid = some a → a.mesh.kind = ObjKind.asteroid)

/-- The three.js method `a.dot(b)`. -/
def Vec3.dot (a b : Vec3) : ℝ := a.x * b.x + a.y * b.y + a.z * b.z

/-- A place given by a name and finite coordinates in degrees, to name the same registry
in the record shapes of the different variants. -/
structure Place where
  name : String
  lat : ℝ
  lon : ℝ

/-- A place as a record of `main copy 4.js`. -/
def Place.toRow4 (p : Place) : Row4 := ⟨some p.name, JsNum.fin p.lat, JsNum.fin p.lon⟩

/-- A place as a record of `main copy 5.js` and `main copy 6.js`. -/
def Place.toCountryRecord (p : Place) : CountryRecord := ⟨p.name, p.lat, p.lon⟩

/-! ## The crater variables under each handler -/

theorem run_nil (σ : State) : run σ [] = σ := rfl

theorem run_cons (σ : State) (e : Event) (es : List Event) :
    run σ (e :: es) = run (step σ e) es := rfl

theorem run_append (σ : State) (es fs : List Event) :
    run σ (es ++ fs) = run (run σ es) fs := by
  simp [run, List.foldl_append]

/-- A `mousedown` changes none of the crater variables nor the asteroid. -/
theorem mousedown_crater (σ : State) (button : Nat) (hit : Option Vec3) :
    (mousedown σ button hit).craterDepth = σ.craterDepth ∧
    (mousedown σ button hit).craterTargetDepth = σ.craterTargetDepth ∧
    (mousedown σ button hit).craterGrowing = σ.craterGrowing ∧
    (mousedown σ button hit).craterRadius = σ.craterRadius ∧
    (mousedown σ button hit).craterPos = σ.craterPos ∧
    (mousedown σ button hit).asteroid = σ.asteroid := by
  unfold mousedown
  split_ifs
  · simp
  · cases hit <;> simp

/-- The asteroid block of `animate` changes none of the crater variables. -/
theorem asteroidMotion_crater (σ : State) :
    (asteroidMotion σ).craterDepth = σ.craterDepth ∧
    (asteroidMotion σ).craterTargetDepth = σ.craterTargetDepth ∧
    (asteroidMotion σ).craterGrowing = σ.craterGrowing ∧
    (asteroidMotion σ).craterRadius = σ.craterRadius ∧
    (asteroidMotion σ).craterPos = σ.craterPos := by
  unfold asteroidMotion
  cases σ.asteroid with
  | none => simp
  | some a =>
    simp only
    split_ifs <;> simp

/-- The crater variables after one `animate`, while the crater grows and the next depth is
below the target. -/
theorem animate_growing_below (σ : State) (s : ℝ) (hg : σ.craterGrowing = true)
    (hlt : σ.craterDepth + 1 < σ.craterTargetDepth) :
    (animate σ s).craterDepth = σ.craterDepth + 1 ∧
    (animate σ s).craterGrowing = true ∧
    (animate σ s).craterTargetDepth = σ.craterTargetDepth := by
  obtain ⟨h1, h2, h3, -, -⟩ := asteroidMotion_crater σ
  simp [animate, craterAnimation, h1, h2, h3, hg, not_le.mpr hlt]

/-- The crater variables after one `animate`, while the crater grows and the next depth
reaches the target. -/
theorem animate_growing_reach (σ : State) (s : ℝ) (hg : σ.craterGrowing = true)
    (hge : σ.craterTargetDepth ≤ σ.craterDepth + 1) :
    (animate σ s).craterDepth = σ.craterTargetDepth ∧
    (animate σ s).craterGrowing = false ∧
    (animate σ s).craterTargetDepth = σ.craterTargetDepth := by
  obtain ⟨h1, h2, h3, -, -⟩ := asteroidMotion_crater σ
  simp [animate, craterAnimation, h1, h2, h3, hg, hge]

/-- The crater variables after one `animate` when the crater does not grow. -/
theorem animate_idle (σ : State) (s : ℝ) (hg : σ.craterGrowing = false) :
    (animate σ s).craterDepth = σ.craterDepth ∧
    (animate σ s).craterGrowing = false ∧
    (animate σ s).craterTargetDepth = σ.craterTargetDepth := by
  obtain ⟨h1, h2, h3, -, -⟩ := asteroidMotion_crater σ
  simp [animate, craterAnimation, h1, h2, h3, hg]

theorem craterInv_step (σ : State) (e : Event) (h : CraterInv σ) : CraterInv (step σ e) := by
  obtain ⟨h0, h1⟩ := h
  cases e with
  | mousedown button hit =>
    obtain ⟨e1, e2, -⟩ := mousedown_crater σ button hit
    simp only [step, CraterInv, e1, e2]
    exact ⟨h0, h1⟩
  | launch camera slider =>
    simp only [step, CraterInv, launch]
    cases σ.waypoint with
    | none => exact ⟨h0, h1⟩
    | some wp => norm_num
  | animate slider =>
    simp only [step, CraterInv]
    cases hg : σ.craterGrowing with
    | false =>
      obtain ⟨e1, -, e3⟩ := animate_idle σ slider hg
      rw [e1, e3]
      exact ⟨h0, h1⟩
    | true =>
      by_cases hlt : σ.craterDepth + 1 < σ.craterTargetDepth
      · obtain ⟨e1, -, e3⟩ := animate_growing_below σ slider hg hlt
        rw [e1, e3]
        exact ⟨by linarith, le_of_lt hlt⟩
      · obtain ⟨e1, -, e3⟩ := animate_growing_reach σ slider hg (not_lt.mp hlt)
        rw [e1, e3]
        exact ⟨le_trans h0 h1, le_refl _⟩

theorem craterInv_run (es : List Event) (σ : State) (h : CraterInv σ) :
    CraterInv (run σ es) := by
  induction es generalizing σ with
  | nil => exact h
  | cons e es ih => exact ih (step σ e) (craterInv_step σ e h)

theorem craterInv_init (s0 : ℝ) : CraterInv (init s0) := by
  simp [CraterInv, init]

/-- With target depth 50 and an integral depth `k ≤ 50` that grows exactly while `k < 50`,
events other than launches bring the depth to `min (k + ticks) 50`. -/
theorem grow_run (es : List Event) (σ : State) (k : ℕ)
    (hes : ∀ e ∈ es, Event.isLaunch e = false)
    (ht : σ.craterTargetDepth = 50) (hd : σ.craterDepth = (k : ℝ)) (hk : k ≤ 50)
    (hg : σ.craterGrowing = true ↔ k < 50) :
    (run σ es).craterDepth = ((min (k + ticks es) 50 : ℕ) : ℝ) ∧
    ((run σ es).craterGrowing = true ↔ k + ticks es < 50) := by
  induction es generalizing σ k with
  | nil =>
    simp only [run_nil, ticks, List.countP_nil, Nat.add_zero]
    exact ⟨by rw [hd, Nat.min_eq_left hk], hg⟩
  | cons e es ih =>
    have hes2 : ∀ e ∈ es, Event.isLaunch e = false :=
      fun e1 he1 => hes e1 (List.mem_cons_of_mem _ he1)
    have he := hes e (List.mem_cons_self _ _)
    rw [run_cons]
    cases e with
    | launch camera slider => simp [Event.isLaunch] at he
    | mousedown button hit =>
      obtain ⟨e1, e2, e3, -⟩ := mousedown_crater σ button hit
      have := ih (step σ (Event.mousedown button hit)) k hes2
        (by simp [step, e2, ht]) (by simp [step, e1, hd]) hk (by simp [step, e3, hg])
      simpa [ticks, Event.isTick] using this
    | animate slider =>
      have hticks : ticks (Event.animate slider :: es) = ticks es + 1 := by
        simp [ticks, Event.isTick]
      rw [hticks]
      by_cases hk50 : k < 50
      · have hgt : σ.craterGrowing = true := hg.mpr hk50
        by_cases hk49 : k + 1 < 50
        · have hlt : σ.craterDepth + 1 < σ.craterTargetDepth := by
            rw [hd, ht]; exact_mod_cast hk49
          obtain ⟨e1, e2, e3⟩ := animate_growing_below σ slider hgt hlt
          have := ih (step σ (Event.animate slider)) (k + 1) hes2
            (by simp [step, e3, ht]) (by simp [step, e1, hd]) (le_of_lt hk49)
            (by simp [step, e2, hk49])
          have e4 : k + (ticks es + 1) = k + 1 + ticks es := by omega
          rw [e4]
          exact this
        · have hge : σ.craterTargetDepth ≤ σ.craterDepth + 1 := by
            rw [hd, ht]; exact_mod_cast (not_lt.mp hk49)
          obtain ⟨e1, e2, e3⟩ := animate_growing_reach σ slider hgt hge
          have := ih (step σ (Event.animate slider)) 50 hes2
            (by simp [step, e3, ht]) (by simp [step, e1, ht]) (le_refl _)
            (by simp [step, e2])
          have e4 : min (k + (ticks es + 1)) 50 = min (50 + ticks es) 50 := by omega
          rw [e4]
          refine ⟨this.1, ?_⟩
          rw [this.2]
          omega
      · have hgf : σ.craterGrowing = false := by
          cases hgc : σ.craterGrowing with
          | false => rfl
          | true => exact absurd (hg.mp hgc) hk50
        obtain ⟨e1, e2, e3⟩ := animate_idle σ slider hgf
        have := ih (step σ (Event.animate slider)) k hes2
          (by simp [step, e3, ht]) (by simp [step, e1, hd]) hk
          (by simp [step, e2, hk50])
        have e4 : min (k + (ticks es + 1)) 50 = min (k + ticks es) 50 := by omega
        rw [e4]
        refine ⟨this.1, ?_⟩
        rw [this.2]
        omega

/-! ## Crater growth (C1, C2, C3, C6) -/

/-- C1: with a waypoint, a launch request sets `craterPos` to the waypoint position,
`craterRadius = 4 * s`, `craterTargetDepth = 50`, `craterDepth = 0` and
`craterGrowing = true`; after any further events without a launch, `n` of which are
`animate` ticks, `craterDepth = min n 50` and `craterGrowing` is true exactly when
`n < 50`. -/
theorem launch_seeds_crater (σ : State) (wp : Waypoint) (camera : Vec3) (s : ℝ)
    (hwp : σ.waypoint = some wp) :
    (launch σ camera s).craterPos = wp.position ∧
    (launch σ camera s).craterRadius = 4 * s ∧
    (launch σ camera s).craterTargetDepth = 50 ∧
    (launch σ camera s).craterDepth = 0 ∧
    (launch σ camera s).craterGrowing = true ∧
    ∀ es : List Event, (∀ e ∈ es, Event.isLaunch e = false) →
      (run (launch σ camera s) es).craterDepth = min (ticks es : ℝ) 50 ∧
      ((run (launch σ camera s) es).craterGrowing = true ↔ ticks es < 50) := by
  have h1 : (launch σ camera s).craterPos = wp.position := by simp [launch, hwp]
  have h2 : (launch σ camera s).craterRadius = 4 * s := by simp [launch, hwp, mul_comm]
  have h3 : (launch σ camera s).craterTargetDepth = 50 := by simp [launch, hwp]
  have h4 : (launch σ camera s).craterDepth = 0 := by simp [launch, hwp]
  have h5 : (launch σ camera s).craterGrowing = true := by simp [launch, hwp]
  refine ⟨h1, h2, h3, h4, h5, ?_⟩
  intro es hes
  have := grow_run es (launch σ camera s) 0 hes h3 (by simp [h4]) (by norm_num)
    (by simp [h5])
  rw [Nat.zero_add] at this
  refine ⟨?_, this.2⟩
  rw [this.1]
  push_cast
  rfl

/-- C1, the scenario of the specification: a waypoint at `(0, 0, 1000)`, the slider at 10:
the radius is 40 and after 50 ticks `craterDepth = 50` and `craterGrowing = false`. -/
theorem launch_seeds_crater_witness :
    (launch (mousedown (init 10) 0 (some ⟨0, 0, 1000⟩)) ⟨0, 0, 3000⟩ 10).craterRadius = 40 ∧
    (launch (mousedown (init 10) 0 (some ⟨0, 0, 1000⟩)) ⟨0, 0, 3000⟩ 10).craterTargetDepth
      = 50 ∧
    (run (launch (mousedown (init 10) 0 (some ⟨0, 0, 1000⟩)) ⟨0, 0, 3000⟩ 10)
      (List.replicate 50 (Event.animate 10))).craterDepth = 50 ∧
    (run (launch (mousedown (init 10) 0 (some ⟨0, 0, 1000⟩)) ⟨0, 0, 3000⟩ 10)
      (List.replicate 50 (Event.animate 10))).craterGrowing = false := by
  obtain ⟨-, h2, h3, -, -, h6⟩ :=
    launch_seeds_crater (mousedown (init 10) 0 (some ⟨0, 0, 1000⟩))
      ⟨⟨3, ObjKind.pin⟩, 4, ⟨0, 0, 1000⟩⟩ ⟨0, 0, 3000⟩ 10 (by simp [mousedown, init, sceneAdd])
  have hes : ∀ e ∈ List.replicate 50 (Event.animate 10), Event.isLaunch e = false := by
    intro e he
    rw [List.eq_of_mem_replicate he]
    rfl
  have ht : ticks (List.replicate 50 (Event.animate 10)) = 50 := by
    simp [ticks, Event.isTick, List.countP_replicate]
  obtain ⟨h7, h8⟩ := h6 _ hes
  rw [ht] at h7 h8
  refine ⟨by rw [h2]; norm_num, h3, by rw [h7]; norm_num, ?_⟩
  cases hg : (run (launch (mousedown (init 10) 0 (some ⟨0, 0, 1000⟩)) ⟨0, 0, 3000⟩ 10)
      (List.replicate 50 (Event.animate 10))).craterGrowing with
  | false => rfl
  | true => exact absurd (h8.mp hg) (by norm_num)

/-- C2: in every state reached from the initial state by mousedown events, launch requests
and animate ticks, `0 ≤ craterDepth ≤ craterTargetDepth`. -/
theorem craterDepth_within_target (s0 : ℝ) (es : List Event) :
    0 ≤ (run (init s0) es).craterDepth ∧
    (run (init s0) es).craterDepth ≤ (run (init s0) es).craterTargetDepth :=
  craterInv_run es (init s0) (craterInv_init s0)

/-- C3: in a reachable state where the crater grows, one animate tick does not decrease
`craterDepth`, leaves it at most `craterTargetDepth`, and switches `craterGrowing` off
when the new depth equals the target; where the crater does not grow, any events other
than a launch (animate ticks, mousedown events) leave `craterGrowing` false and
`craterDepth` unchanged. -/
theorem crater_growth_monotone (s0 : ℝ) (es : List Event) (s : ℝ) :
    ((run (init s0) es).craterGrowing = true →
      (run (init s0) es).craterDepth ≤ (animate (run (init s0) es) s).craterDepth ∧
      (animate (run (init s0) es) s).craterDepth
        ≤ (animate (run (init s0) es) s).craterTargetDepth ∧
      ((animate (run (init s0) es) s).craterDepth
          = (animate (run (init s0) es) s).craterTargetDepth →
        (animate (run (init s0) es) s).craterGrowing = false)) ∧
    ((run (init s0) es).craterGrowing = false →
      ∀ fs : List Event, (∀ e ∈ fs, Event.isLaunch e = false) →
        (run (run (init s0) es) fs).craterGrowing = false ∧
        (run (run (init s0) es) fs).craterDepth = (run (init s0) es).craterDepth) := by
  obtain ⟨h0, h1⟩ := craterInv_run es (init s0) (craterInv_init s0)
  generalize run (init s0) es = σ at h0 h1
  constructor
  · intro hg
    by_cases hlt : σ.craterDepth + 1 < σ.craterTargetDepth
    · obtain ⟨e1, e2, e3⟩ := animate_growing_below σ s hg hlt
      rw [e1, e3]
      exact ⟨by linarith, le_of_lt hlt, fun h => absurd h (ne_of_lt hlt)⟩
    · obtain ⟨e1, e2, e3⟩ := animate_growing_reach σ s hg (not_lt.mp hlt)
      rw [e1, e3]
      exact ⟨h1, le_refl _, fun _ => e2⟩
  · intro hg fs
    induction fs generalizing σ with
    | nil => intro _; exact ⟨hg, rfl⟩
    | cons e fs ih =>
      intro hfs
      have hfs2 : ∀ e ∈ fs, Event.isLaunch e = false :=
        fun e1 he1 => hfs e1 (List.mem_cons_of_mem _ he1)
      have he := hfs e (List.mem_cons_self _ _)
      rw [run_cons]
      cases e with
      | launch camera slider => simp [Event.isLaunch] at he
      | mousedown button hit =>
        obtain ⟨e1, e2, e3, -⟩ := mousedown_crater σ button hit
        have := ih (step σ (Event.mousedown button hit)) (by simp [step, e1, h0])
          (by simp [step, e1, e2, h1]) (by simp [step, e3, hg]) hfs2
        simpa [step, e1] using this
      | animate slider =>
        obtain ⟨e1, e2, e3⟩ := animate_idle σ slider hg
        have := ih (step σ (Event.animate slider)) (by simp [step, e1, h0])
          (by simp [step, e1, e3, h1]) (by simp [step, e2]) hfs2
        simpa [step, e1] using this

/-- C3 at two reachable states: right after a first launch the crater grows and a tick
does not decrease the depth; in the initial state it does not grow and a tick leaves
`craterGrowing` false and the depth unchanged. -/
theorem crater_growth_monotone_witness :
    (run (init 10) [Event.mousedown 0 (some ⟨0, 0, 1000⟩),
        Event.launch ⟨0, 0, 3000⟩ 10]).craterDepth
      ≤ (animate (run (init 10) [Event.mousedown 0 (some ⟨0, 0, 1000⟩),
        Event.launch ⟨0, 0, 3000⟩ 10]) 10).craterDepth ∧
    (run (run (init 10) []) [Event.animate 10]).craterGrowing = false ∧
    (run (run (init 10) []) [Event.animate 10]).craterDepth
      = (run (init 10) []).craterDepth := by
  refine ⟨?_, ?_⟩
  · exact ((crater_growth_monotone 10 _ 10).1
      (by simp [run, step, launch, mousedown, init])).1
  · exact (crater_growth_monotone 10 [] 10).2 rfl [Event.animate 10]
      (by simp [Event.isLaunch])

/-- C6: a launch request in a state with no waypoint changes nothing: the handler returns
at once and the whole state (asteroid, crater variables, scene) is as before. -/
theorem launch_without_waypoint (σ : State) (camera : Vec3) (s : ℝ)
    (h : σ.waypoint = none) : launch σ camera s = σ := by
  simp [launch, h]

/-- C6 at the initial state. -/
theorem launch_without_waypoint_witness :
    launch (init 10) ⟨0, 0, 3000⟩ 10 = init 10 :=
  launch_without_waypoint (init 10) ⟨0, 0, 3000⟩ 10 rfl


theorem Vec3.length_nonneg (v : Vec3) : 0 ≤ v.length := Real.sqrt_nonneg _

theorem Vec3.length_multiplyScalar (v : Vec3) (s : ℝ) :
    (v.multiplyScalar s).length = |s| * v.length := by
  unfold Vec3.length Vec3.multiplyScalar
  have h : v.x * s * (v.x * s) + v.y * s * (v.y * s) + v.z * s * (v.z * s)
      = s ^ 2 * (v.x * v.x + v.y * v.y + v.z * v.z) := by ring
  simp only [h]
  rw [Real.sqrt_mul (sq_nonneg s), Real.sqrt_sq_eq_abs]

theorem Vec3.length_eq_zero_iff (v : Vec3) :
    v.length = 0 ↔ v.x = 0 ∧ v.y = 0 ∧ v.z = 0 := by
  unfold Vec3.length
  have hnn : 0 ≤ v.x * v.x + v.y * v.y + v.z * v.z :=
    add_nonneg (add_nonneg (mul_self_nonneg _) (mul_self_nonneg _)) (mul_self_nonneg _)
  rw [Real.sqrt_eq_zero hnn]
  constructor
  · intro h
    have hx := mul_self_nonneg v.x
    have hy := mul_self_nonneg v.y
    have hz := mul_self_nonneg v.z
    refine ⟨?_, ?_, ?_⟩ <;> apply mul_self_eq_zero.mp <;> linarith
  · rintro ⟨hx, hy, hz⟩
    simp [hx, hy, hz]

theorem Vec3.length_subVectors_pos (a b : Vec3) (h : a ≠ b) :
    0 < (Vec3.subVectors a b).length := by
  rcases lt_or_eq_of_le (Vec3.length_nonneg (Vec3.subVectors a b)) with hlt | heq
  · exact hlt
  · exfalso
    apply h
    obtain ⟨hx, hy, hz⟩ := (Vec3.length_eq_zero_iff _).mp heq.symm
    simp only [Vec3.subVectors] at hx hy hz
    cases a
    cases b
    simp only [Vec3.mk.injEq]
    simp only at hx hy hz
    exact ⟨by linarith, by linarith, by linarith⟩

theorem Vec3.normalize_of_pos (v : Vec3) (h : 0 < v.length) :
    v.normalize = v.multiplyScalar (1 / v.length) := by
  unfold Vec3.normalize Vec3.divideScalar
  rw [if_neg (ne_of_gt h)]

/-- The asteroid that a launch creates, when there is a waypoint. -/
theorem launch_asteroid (σ : State) (wp : Waypoint) (camera : Vec3) (s : ℝ)
    (hwp : σ.waypoint = some wp) :
    (launch σ camera s).asteroid = some
      ⟨⟨σ.nextId, ObjKind.asteroid⟩,
        camera.add ((Vec3.subVectors wp.position camera).normalize.multiplyScalar 5000),
        wp.position⟩ := by
  simp [launch, hwp]

/-- C7: with a waypoint at `w` and the camera at `c ≠ w`, a launch request (from any state,
with or without a live projectile) makes the live projectile the one at
`c + 5000 (w - c) / |w - c|` with target `w`; it is at distance exactly 5000 from the
camera and at distance `|5000 - |w - c||` from its target. -/
theorem launch_places_projectile (σ : State) (wp : Waypoint) (camera : Vec3) (s : ℝ)
    (hwp : σ.waypoint = some wp) (hne : wp.position ≠ camera) :
    ∃ a : Asteroid, (launch σ camera s).asteroid = some a ∧
      a.target = wp.position ∧
      a.position =
        ⟨camera.x + 5000 * (wp.position.x - camera.x)
            / (Vec3.subVectors wp.position camera).length,
          camera.y + 5000 * (wp.position.y - camera.y)
            / (Vec3.subVectors wp.position camera).length,
          camera.z + 5000 * (wp.position.z - camera.z)
            / (Vec3.subVectors wp.position camera).length⟩ ∧
      Vec3.distanceTo a.position camera = 5000 ∧
      Vec3.distanceTo a.target a.position
        = |5000 - (Vec3.subVectors wp.position camera).length| := by
  have hL := Vec3.length_subVectors_pos wp.position camera hne
  have hn := Vec3.normalize_of_pos _ hL
  refine ⟨_, launch_asteroid σ wp camera s hwp, rfl, ?_, ?_, ?_⟩
  · rw [hn]
    generalize (Vec3.subVectors wp.position camera).length = L at hL
    have hL0 : L ≠ 0 := ne_of_gt hL
    simp only [Vec3.add, Vec3.multiplyScalar, Vec3.subVectors, Vec3.mk.injEq]
    refine ⟨?_, ?_, ?_⟩ <;> field_simp <;> ring
  · have h1 : Vec3.subVectors
        (camera.add ((Vec3.subVectors wp.position camera).normalize.multiplyScalar 5000))
        camera
        = (Vec3.subVectors wp.position camera).multiplyScalar
            (5000 / (Vec3.subVectors wp.position camera).length) := by
      rw [hn]
      generalize (Vec3.subVectors wp.position camera).length = L at hL
      have hL0 : L ≠ 0 := ne_of_gt hL
      simp only [Vec3.add, Vec3.multiplyScalar, Vec3.subVectors, Vec3.mk.injEq]
      refine ⟨?_, ?_, ?_⟩ <;> field_simp <;> ring
    simp only [Vec3.distanceTo]
    rw [h1, Vec3.length_multiplyScalar, abs_of_pos (div_pos (by norm_num) hL)]
    field_simp
  · have h1 : Vec3.subVectors wp.position
        (camera.add ((Vec3.subVectors wp.position camera).normalize.multiplyScalar 5000))
        = (Vec3.subVectors wp.position camera).multiplyScalar
            (1 - 5000 / (Vec3.subVectors wp.position camera).length) := by
      rw [hn]
      generalize (Vec3.subVectors wp.position camera).length = L at hL
      have hL0 : L ≠ 0 := ne_of_gt hL
      simp only [Vec3.add, Vec3.multiplyScalar, Vec3.subVectors, Vec3.mk.injEq]
      refine ⟨?_, ?_, ?_⟩ <;> field_simp <;> ring
    simp only [Vec3.distanceTo]
    rw [h1, Vec3.length_multiplyScalar]
    generalize (Vec3.subVectors wp.position camera).length = L at hL
    have hL0 : L ≠ 0 := ne_of_gt hL
    nth_rewrite 2 [← abs_of_pos hL]
    rw [← abs_mul, abs_sub_comm]
    congr 1
    field_simp

/-- C7 for a waypoint at `(0, 0, 1000)` and the camera at its initial place
`(0, 0, 3000)`. -/
theorem launch_places_projectile_witness :
    ∃ a : Asteroid, (launch stateClicked ⟨0, 0, 3000⟩ 10).asteroid = some a ∧
      a.target = ⟨0, 0, 1000⟩ ∧ Vec3.distanceTo a.position ⟨0, 0, 3000⟩ = 5000 := by
  obtain ⟨a, h1, h2, -, h4, -⟩ := launch_places_projectile stateClicked
    ⟨⟨3, ObjKind.pin⟩, 4, ⟨0, 0, 1000⟩⟩ ⟨0, 0, 3000⟩ 10
    (by simp [stateClicked, mousedown, init, sceneAdd])
    (by simp [Vec3.mk.injEq])
  exact ⟨a, h1, h2, h4⟩

/-! ## Motion along the z axis -/

theorem Vec3.length_zaxis (z : ℝ) : (⟨0, 0, z⟩ : Vec3).length = |z| := by
  simp [Vec3.length, Real.sqrt_mul_self_eq_abs]

theorem animate_asteroid (σ : State) (s : ℝ) :
    (animate σ s).asteroid = (asteroidMotion σ).asteroid := by
  simp only [animate, craterAnimation]
  split_ifs <;> rfl

theorem asteroidMotion_frame (σ : State) :
    (asteroidMotion σ).scene = σ.scene ∧ (asteroidMotion σ).waypoint = σ.waypoint ∧
    (asteroidMotion σ).nextId = σ.nextId ∧ (asteroidMotion σ).labels = σ.labels := by
  unfold asteroidMotion
  cases σ.asteroid with
  | none => simp
  | some a =>
    simp only
    split_ifs <;> simp

/-- An `animate` tick changes neither the scene nor the waypoint nor the labels. -/
theorem animate_frame (σ : State) (s : ℝ) :
    (animate σ s).scene = σ.scene ∧ (animate σ s).waypoint = σ.waypoint ∧
    (animate σ s).nextId = σ.nextId ∧ (animate σ s).labels = σ.labels := by
  obtain ⟨h1, h2, h3, h4⟩ := asteroidMotion_frame σ
  simp only [animate, craterAnimation]
  split_ifs <;> exact ⟨h1, h2, h3, h4⟩

/-- The asteroid block for a projectile on the z axis, farther than 10 from its target. -/
theorem asteroidMotion_zaxis_far (σ : State) (m : SceneObj) (p t : ℝ)
    (h : σ.asteroid = some ⟨m, ⟨0, 0, p⟩, ⟨0, 0, t⟩⟩) (hd : 10 < |t - p|) :
    (asteroidMotion σ).asteroid
      = some ⟨m, ⟨0, 0, p + 50 * (t - p) / |t - p|⟩, ⟨0, 0, t⟩⟩ := by
  have hpos : (0 : ℝ) < |t - p| := by linarith
  have hlen : (Vec3.subVectors ⟨0, 0, t⟩ ⟨0, 0, p⟩).length = |t - p| := by
    simp [Vec3.subVectors, Vec3.length_zaxis]
  have hn := Vec3.normalize_of_pos (Vec3.subVectors ⟨0, 0, t⟩ ⟨0, 0, p⟩) (by rw [hlen]; exact hpos)
  unfold asteroidMotion
  rw [h]
  simp only [hlen, hn, gt_iff_lt, if_pos hd]
  simp only [Vec3.add, Vec3.multiplyScalar, Vec3.subVectors, Option.some.injEq,
    Asteroid.mk.injEq, Vec3.mk.injEq]
  refine ⟨trivial, ⟨?_, ?_, ?_⟩, trivial⟩
  · simp
  · simp
  · field_simp
    ring

/-- The asteroid block for a projectile on the z axis, within 10 of its target. -/
theorem asteroidMotion_zaxis_near (σ : State) (m : SceneObj) (p t : ℝ)
    (h : σ.asteroid = some ⟨m, ⟨0, 0, p⟩, ⟨0, 0, t⟩⟩) (hd : |t - p| ≤ 10) :
    (asteroidMotion σ).asteroid = none := by
  have hlen : (Vec3.subVectors ⟨0, 0, t⟩ ⟨0, 0, p⟩).length = |t - p| := by
    simp [Vec3.subVectors, Vec3.length_zaxis]
  unfold asteroidMotion
  rw [h]
  simp only [hlen, gt_iff_lt, if_neg (not_lt.mpr hd)]

/-- A launch with the waypoint and the camera on the z axis. -/
theorem launch_zaxis (σ : State) (mesh : SceneObj) (el : Nat) (w c s : ℝ)
    (hwp : σ.waypoint = some ⟨mesh, el, ⟨0, 0, w⟩⟩) (hne : w ≠ c) :
    (launch σ ⟨0, 0, c⟩ s).asteroid = some
      ⟨⟨σ.nextId, ObjKind.asteroid⟩, ⟨0, 0, c + 5000 * (w - c) / |w - c|⟩, ⟨0, 0, w⟩⟩ := by
  have hpos : (0 : ℝ) < |w - c| := abs_pos.mpr (sub_ne_zero.mpr hne)
  have hlen : (Vec3.subVectors ⟨0, 0, w⟩ ⟨0, 0, c⟩).length = |w - c| := by
    simp [Vec3.subVectors, Vec3.length_zaxis]
  have hn := Vec3.normalize_of_pos (Vec3.subVectors ⟨0, 0, w⟩ ⟨0, 0, c⟩) (by rw [hlen]; exact hpos)
  rw [launch_asteroid σ _ ⟨0, 0, c⟩ s hwp]
  simp only [hn, hlen]
  simp only [Vec3.add, Vec3.multiplyScalar, Vec3.subVectors, Option.some.injEq,
    Asteroid.mk.injEq, Vec3.mk.injEq]
  refine ⟨trivial, ⟨?_, ?_, ?_⟩, trivial⟩
  · simp
  · simp
  · field_simp
    ring

/-- The scene after a launch that finds a waypoint and no live asteroid. -/
theorem launch_scene_of_none (σ : State) (wp : Waypoint) (camera : Vec3) (s : ℝ)
    (hwp : σ.waypoint = some wp) (ha : σ.asteroid = none) :
    (launch σ camera s).scene = σ.scene ++ [⟨σ.nextId, ObjKind.asteroid⟩] := by
  simp [launch, hwp, ha, sceneAdd]

theorem stateClicked_waypoint :
    stateClicked.waypoint = some ⟨⟨3, ObjKind.pin⟩, 4, ⟨0, 0, 1000⟩⟩ := by
  simp [stateClicked, mousedown, init]

theorem stateClicked_frame :
    stateClicked.scene
      = [⟨0, ObjKind.light⟩, ⟨1, ObjKind.light⟩, ⟨2, ObjKind.earth⟩, ⟨3, ObjKind.pin⟩] ∧
    stateClicked.nextId = 5 ∧ stateClicked.asteroid = none := by
  simp [stateClicked, mousedown, init, sceneAdd]

/-! ## The projectile (C4, C5, C8) -/

/-- A projectile on the z axis with target `(0, 0, 1000)`, at `(0, 0, 1025)` or at
`(0, 0, 975)`, is in one of these two places after any number of ticks. -/
theorem oscillate (n : ℕ) (σ : State) (m : SceneObj) (s : ℝ)
    (h : σ.asteroid = some ⟨m, ⟨0, 0, 1025⟩, ⟨0, 0, 1000⟩⟩ ∨
      σ.asteroid = some ⟨m, ⟨0, 0, 975⟩, ⟨0, 0, 1000⟩⟩) :
    (run σ (List.replicate n (Event.animate s))).asteroid
        = some ⟨m, ⟨0, 0, 1025⟩, ⟨0, 0, 1000⟩⟩ ∨
      (run σ (List.replicate n (Event.animate s))).asteroid
        = some ⟨m, ⟨0, 0, 975⟩, ⟨0, 0, 1000⟩⟩ := by
  induction n generalizing σ with
  | zero => exact h
  | succ n ih =>
    rw [List.replicate_succ, run_cons]
    apply ih
    simp only [step]
    rw [animate_asteroid]
    rcases h with h | h
    · right
      rw [asteroidMotion_zaxis_far σ m 1025 1000 h (by norm_num [abs_of_neg])]
      norm_num [abs_of_neg]
    · left
      rw [asteroidMotion_zaxis_far σ m 975 1000 h (by norm_num [abs_of_pos])]
      norm_num [abs_of_pos]

/-- C4, at a launch whose initial distance is 25: the waypoint is at `(0, 0, 1000)` and the
camera at `(0, 0, 6025)`, so the projectile starts at `(0, 0, 1025)`. After any number `n`
of animate ticks the projectile is still live, 25 away from its target: it steps 50 over
the target and back, and is never discarded, although `ceil (25 / 50) + 1 = 2`. -/
theorem asteroid_never_arrives (n : ℕ) :
    ∃ a : Asteroid,
      (run (launch stateClicked ⟨0, 0, 6025⟩ 10)
        (List.replicate n (Event.animate 10))).asteroid = some a ∧
      Vec3.distanceTo a.target a.position = 25 := by
  have h0 : (launch stateClicked ⟨0, 0, 6025⟩ 10).asteroid
      = some ⟨⟨5, ObjKind.asteroid⟩, ⟨0, 0, 1025⟩, ⟨0, 0, 1000⟩⟩ := by
    rw [launch_zaxis stateClicked _ _ 1000 6025 10 stateClicked_waypoint (by norm_num),
      stateClicked_frame.2.1]
    norm_num [abs_of_neg]
  rcases oscillate n _ _ 10 (Or.inl h0) with h | h
  · exact ⟨_, h, by norm_num [Vec3.distanceTo, Vec3.subVectors, Vec3.length_zaxis, abs_of_neg]⟩
  · exact ⟨_, h, by norm_num [Vec3.distanceTo, Vec3.subVectors, Vec3.length_zaxis]⟩

/-- C5 fails as stated: with the waypoint at `(0, 0, 1000)` and the camera at
`(0, 0, 3000)` the projectile is 3000 from its target after the launch and 2950 after
the first tick, still in flight, and that tick has already raised `craterDepth` from
0 to 1. -/
theorem crater_grows_in_flight :
    ∃ a b : Asteroid,
      (launch stateClicked ⟨0, 0, 3000⟩ 10).asteroid = some a ∧
      Vec3.distanceTo a.target a.position = 3000 ∧
      (launch stateClicked ⟨0, 0, 3000⟩ 10).craterDepth = 0 ∧
      (animate (launch stateClicked ⟨0, 0, 3000⟩ 10) 10).asteroid = some b ∧
      Vec3.distanceTo b.target b.position = 2950 ∧
      10 < Vec3.distanceTo b.target b.position ∧
      (animate (launch stateClicked ⟨0, 0, 3000⟩ 10) 10).craterDepth = 1 ∧
      (animate (launch stateClicked ⟨0, 0, 3000⟩ 10) 10).craterDepth ≠ 0 := by
  have h0 : (launch stateClicked ⟨0, 0, 3000⟩ 10).asteroid
      = some ⟨⟨5, ObjKind.asteroid⟩, ⟨0, 0, -2000⟩, ⟨0, 0, 1000⟩⟩ := by
    rw [launch_zaxis stateClicked _ _ 1000 3000 10 stateClicked_waypoint (by norm_num),
      stateClicked_frame.2.1]
    norm_num [abs_of_neg]
  have h1 : (animate (launch stateClicked ⟨0, 0, 3000⟩ 10) 10).asteroid
      = some ⟨⟨5, ObjKind.asteroid⟩, ⟨0, 0, -1950⟩, ⟨0, 0, 1000⟩⟩ := by
    rw [animate_asteroid, asteroidMotion_zaxis_far _ _ (-2000) 1000 h0 (by norm_num)]
    norm_num
  have hd0 : (launch stateClicked ⟨0, 0, 3000⟩ 10).craterDepth = 0 := by
    simp [launch, stateClicked_waypoint]
  have hd1 : (animate (launch stateClicked ⟨0, 0, 3000⟩ 10) 10).craterDepth = 1 := by
    have := animate_growing_below (launch stateClicked ⟨0, 0, 3000⟩ 10) 10
      (by simp [launch, stateClicked_waypoint])
      (by simp [launch, stateClicked_waypoint])
    rw [this.1, hd0]
    norm_num
  refine ⟨_, _, h0, ?_, hd0, h1, ?_, ?_, hd1, by rw [hd1]; norm_num⟩
  · norm_num [Vec3.distanceTo, Vec3.subVectors, Vec3.length_zaxis]
  · norm_num [Vec3.distanceTo, Vec3.subVectors, Vec3.length_zaxis]
  · norm_num [Vec3.distanceTo, Vec3.subVectors, Vec3.length_zaxis]

/-- C5 as amended: crater growth begins at the launch request. With a waypoint, a launch
leaves `craterDepth = 0` and `craterGrowing = true`, and the first animate tick after it
raises `craterDepth` to 1, wherever the camera and so the projectile are. -/
theorem crater_growth_begins_at_launch (σ : State) (wp : Waypoint) (camera : Vec3)
    (s s1 : ℝ) (hwp : σ.waypoint = some wp) :
    (launch σ camera s).craterDepth = 0 ∧
    (launch σ camera s).craterGrowing = true ∧
    (animate (launch σ camera s) s1).craterDepth = 1 := by
  have hd0 : (launch σ camera s).craterDepth = 0 := by simp [launch, hwp]
  have hg : (launch σ camera s).craterGrowing = true := by simp [launch, hwp]
  have ht : (launch σ camera s).craterTargetDepth = 50 := by simp [launch, hwp]
  refine ⟨hd0, hg, ?_⟩
  have := animate_growing_below (launch σ camera s) s1 hg (by rw [hd0, ht]; norm_num)
  rw [this.1, hd0]
  norm_num

/-- C5 as amended, at the waypoint `(0, 0, 1000)` with the camera at `(0, 0, 3000)`, where
the projectile is 2950 from its target after the first tick. -/
theorem crater_growth_begins_at_launch_witness :
    (launch stateClicked ⟨0, 0, 3000⟩ 10).craterDepth = 0 ∧
    (launch stateClicked ⟨0, 0, 3000⟩ 10).craterGrowing = true ∧
    (animate (launch stateClicked ⟨0, 0, 3000⟩ 10) 10).craterDepth = 1 :=
  crater_growth_begins_at_launch stateClicked
    ⟨⟨3, ObjKind.pin⟩, 4, ⟨0, 0, 1000⟩⟩ ⟨0, 0, 3000⟩ 10 10 stateClicked_waypoint

/-- C8, where the code departs from it: the waypoint is at `(0, 0, 1000)` and the camera
at `(0, 0, 6000)`, so the projectile is created on its target. The first tick sets
`asteroid` to `null` but its mesh stays among the children of the scene, and the next
launch, finding `asteroid` null, removes nothing: the scene then holds two projectile
meshes. -/
theorem arrival_keeps_mesh_in_scene :
    (launch stateClicked ⟨0, 0, 6000⟩ 10).asteroid
      = some ⟨⟨5, ObjKind.asteroid⟩, ⟨0, 0, 1000⟩, ⟨0, 0, 1000⟩⟩ ∧
    (animate (launch stateClicked ⟨0, 0, 6000⟩ 10) 10).asteroid = none ∧
    (⟨5, ObjKind.asteroid⟩ : SceneObj)
      ∈ (animate (launch stateClicked ⟨0, 0, 6000⟩ 10) 10).scene ∧
    asteroidMeshes (animate (launch stateClicked ⟨0, 0, 6000⟩ 10) 10).scene = 1 ∧
    asteroidMeshes
      (launch (animate (launch stateClicked ⟨0, 0, 6000⟩ 10) 10) ⟨0, 0, 6000⟩ 10).scene
      = 2 := by
  have h0 : (launch stateClicked ⟨0, 0, 6000⟩ 10).asteroid
      = some ⟨⟨5, ObjKind.asteroid⟩, ⟨0, 0, 1000⟩, ⟨0, 0, 1000⟩⟩ := by
    rw [launch_zaxis stateClicked _ _ 1000 6000 10 stateClicked_waypoint (by norm_num),
      stateClicked_frame.2.1]
    norm_num [abs_of_neg]
  have h1 : (animate (launch stateClicked ⟨0, 0, 6000⟩ 10) 10).asteroid = none := by
    rw [animate_asteroid, asteroidMotion_zaxis_near _ _ 1000 1000 h0 (by norm_num)]
  have hs0 : (launch stateClicked ⟨0, 0, 6000⟩ 10).scene
      = [⟨0, ObjKind.light⟩, ⟨1, ObjKind.light⟩, ⟨2, ObjKind.earth⟩, ⟨3, ObjKind.pin⟩,
        ⟨5, ObjKind.asteroid⟩] := by
    simp [launch, stateClicked_waypoint, stateClicked_frame, sceneAdd]
  have hw0 : (launch stateClicked ⟨0, 0, 6000⟩ 10).waypoint
      = some ⟨⟨3, ObjKind.pin⟩, 4, ⟨0, 0, 1000⟩⟩ := by
    simp [launch, stateClicked_waypoint]
  have hn0 : (launch stateClicked ⟨0, 0, 6000⟩ 10).nextId = 6 := by
    simp [launch, stateClicked_waypoint, stateClicked_frame]
  obtain ⟨f1, f2, f3, -⟩ := animate_frame (launch stateClicked ⟨0, 0, 6000⟩ 10) 10
  rw [hs0] at f1
  rw [hw0] at f2
  rw [hn0] at f3
  refine ⟨h0, h1, ?_, ?_, ?_⟩
  · rw [f1]
    simp
  · rw [f1]
    simp [asteroidMeshes]
  · rw [launch_scene_of_none _ _ _ _ f2 h1, f1, f3]
    simp [asteroidMeshes]

/-! ## Geodesy (C9, C10) -/

theorem degToRad_radToDeg (t : ℝ) : degToRad (radToDeg t) = t := by
  unfold degToRad radToDeg
  field_simp

theorem Vec3.length_sq (v : Vec3) : v.length ^ 2 = v.x * v.x + v.y * v.y + v.z * v.z :=
  Real.sq_sqrt
    (add_nonneg (add_nonneg (mul_self_nonneg _) (mul_self_nonneg _)) (mul_self_nonneg _))

/-- The modulus of `x + z i` is the distance of `(x, z)` from the origin. -/
theorem abs_mk (x z : ℝ) : Complex.abs ⟨x, z⟩ = Real.sqrt (x * x + z * z) := by
  rw [Complex.abs_apply, Complex.normSq_mk]

/-- For a vector of positive length `r`, `r cos (asin (y / r))` is the distance of
`(x, z)` from the origin. -/
theorem length_mul_cos_arcsin (p : Vec3) (hr : 0 < p.length) :
    p.length * Real.cos (Real.arcsin (p.y / p.length))
      = Real.sqrt (p.x * p.x + p.z * p.z) := by
  have hsq := Vec3.length_sq p
  rw [Real.cos_arcsin]
  nth_rewrite 1 [← Real.sqrt_sq (le_of_lt hr)]
  rw [← Real.sqrt_mul (sq_nonneg _)]
  congr 1
  have hne : p.length ≠ 0 := ne_of_gt hr
  field_simp
  nlinarith [hsq]

/-- C9: for every non-zero point `p` with `r = |p|`, the point rebuilt from
`posToLatLon p` and `r` as `(r cos lat cos lon, r sin lat, r cos lat sin lon)` is `p`,
exactly over the reals. -/
theorem posToLatLon_roundtrip (p : Vec3) (hp : p ≠ Vec3.zero) :
    latLonToPos (posToLatLon p).lat (posToLatLon p).lon p.length = p := by
  have hr : 0 < p.length := by
    have := Vec3.length_subVectors_pos p Vec3.zero hp
    simpa [Vec3.subVectors, Vec3.zero] using this
  have hne : p.length ≠ 0 := ne_of_gt hr
  have hsq := Vec3.length_sq p
  have hy : |p.y / p.length| ≤ 1 := by
    rw [abs_div, abs_of_pos hr, div_le_one hr]
    apply abs_le_of_sq_le_sq _ (le_of_lt hr)
    nlinarith [mul_self_nonneg p.x, mul_self_nonneg p.z]
  obtain ⟨hy1, hy2⟩ := abs_le.mp hy
  have hcos := length_mul_cos_arcsin p hr
  have hsin : p.length * Real.sin (Real.arcsin (p.y / p.length)) = p.y := by
    rw [Real.sin_arcsin hy1 hy2]
    field_simp
  cases p with
  | mk x y z =>
    simp only [latLonToPos, posToLatLon, degToRad_radToDeg, atan2, Vec3.mk.injEq]
    simp only at hcos hsin
    refine ⟨?_, hsin, ?_⟩
    · rw [hcos]
      by_cases h0 : (⟨x, z⟩ : ℂ) = 0
      · have hx : x = 0 := congrArg Complex.re h0
        have hz : z = 0 := congrArg Complex.im h0
        simp [hx, hz]
      · have habs : Complex.abs ⟨x, z⟩ ≠ 0 := (map_ne_zero Complex.abs).mpr h0
        rw [Complex.cos_arg h0, ← abs_mk]
        field_simp
    · rw [hcos]
      by_cases h0 : (⟨x, z⟩ : ℂ) = 0
      · have hx : x = 0 := congrArg Complex.re h0
        have hz : z = 0 := congrArg Complex.im h0
        simp [hx, hz]
      · have habs : Complex.abs ⟨x, z⟩ ≠ 0 := (map_ne_zero Complex.abs).mpr h0
        rw [Complex.sin_arg, ← abs_mk]
        field_simp

/-- C9 at the point `(0, 0, 1000)` of the reference sphere. -/
theorem posToLatLon_roundtrip_witness :
    latLonToPos (posToLatLon ⟨0, 0, 1000⟩).lat (posToLatLon ⟨0, 0, 1000⟩).lon
      (Vec3.length ⟨0, 0, 1000⟩) = ⟨0, 0, 1000⟩ :=
  posToLatLon_roundtrip ⟨0, 0, 1000⟩ (by simp [Vec3.zero, Vec3.mk.injEq])

/-- The value `a` of `haversine` is the same when the two points are exchanged. -/
theorem haversine_a_symm (lat1 lon1 lat2 lon2 : ℝ) :
    Real.sin (degToRad (lat2 - lat1) / 2) * Real.sin (degToRad (lat2 - lat1) / 2)
      + Real.cos (degToRad lat1) * Real.cos (degToRad lat2)
        * Real.sin (degToRad (lon2 - lon1) / 2) * Real.sin (degToRad (lon2 - lon1) / 2)
    = Real.sin (degToRad (lat1 - lat2) / 2) * Real.sin (degToRad (lat1 - lat2) / 2)
      + Real.cos (degToRad lat2) * Real.cos (degToRad lat1)
        * Real.sin (degToRad (lon1 - lon2) / 2) * Real.sin (degToRad (lon1 - lon2) / 2) := by
  have h1 : degToRad (lat1 - lat2) / 2 = -(degToRad (lat2 - lat1) / 2) := by
    unfold degToRad
    ring
  have h2 : degToRad (lon1 - lon2) / 2 = -(degToRad (lon2 - lon1) / 2) := by
    unfold degToRad
    ring
  rw [h1, h2, Real.sin_neg, Real.sin_neg]
  ring

/-- C10: `haversine` is symmetric, in `main copy 6.js` and in `main copy 5.js`. -/
theorem haversine_symm (lat1 lon1 lat2 lon2 : ℝ) :
    haversine lat1 lon1 lat2 lon2 = haversine lat2 lon2 lat1 lon1 ∧
    haversine5 lat1 lon1 lat2 lon2 = haversine5 lat2 lon2 lat1 lon1 := by
  have h := haversine_a_symm lat1 lon1 lat2 lon2
  constructor
  · simp only [haversine]
    rw [h]
  · have h5 : Real.sin (degToRad (lat2 - lat1) / 2) ^ 2
        + Real.cos (degToRad lat1) * Real.cos (degToRad lat2)
          * Real.sin (degToRad (lon2 - lon1) / 2) ^ 2
        = Real.sin (degToRad (lat1 - lat2) / 2) ^ 2
        + Real.cos (degToRad lat2) * Real.cos (degToRad lat1)
          * Real.sin (degToRad (lon1 - lon2) / 2) ^ 2 := by
      linear_combination h
    simp only [haversine5]
    rw [h5]

/-! ## Nearest-location search (C13, C14) -/

/-- C14: on an empty registry `findNearestCountry` returns `'Unknown'` for every query, in
`main copy 4.js`, `main copy 5.js` and `main copy 6.js`: the first statement returns
before any record is read or any distance computed. -/
theorem findNearestCountry_empty (lat lon : ℝ) :
    findNearestCountry4 [] lat lon = some "Unknown" ∧
    findNearestCountry5 [] lat lon = "Unknown" ∧
    findNearestCountry [] lat lon = "Unknown" :=
  ⟨rfl, rfl, rfl⟩

/-- Once `minDist` is `NaN` no record replaces `closest`. -/
theorem scanNearest_nan {α : Type} (dist : α → JsNum) (c : α) (rest : List α) :
    scanNearest JsNum.lt dist c JsNum.nan rest = c := by
  induction rest with
  | nil => rfl
  | cons x rest ih =>
    have hnot : ¬ JsNum.lt (dist x) JsNum.nan := by
      cases dist x <;> simp [JsNum.lt]
    simp only [scanNearest, if_neg hnot]
    exact ih

/-- C13, where the code departs from it: when the distance computed for the first record
is `NaN`, every test `d < minDist` is false and `findNearestCountry` returns the first
record, whatever the distances of the others. -/
theorem nan_first_distance_wins (dist : CountryRecord → JsNum) (first : CountryRecord)
    (rest : List CountryRecord) (h : dist first = JsNum.nan) :
    findNearestCountryWith dist (first :: rest) = first.Country := by
  simp only [findNearestCountryWith, h]
  rw [scanNearest_nan]

/-- C13 at the registry `Far (82, 0)`, `Here (-82, -180)` with the query `(-82, -180)`,
for which the program computes the distances `NaN` and 0: the answer is `Far`. -/
theorem nan_first_distance_wins_witness :
    findNearestCountryWith
      (fun r => if r.Country = "Far" then JsNum.nan else JsNum.fin 0)
      [⟨"Far", 82, 0⟩, ⟨"Here", -82, -180⟩] = "Far" :=
  nan_first_distance_wins _ ⟨"Far", 82, 0⟩ [⟨"Here", -82, -180⟩] (by simp)

/-! ## Surface model (C15) -/

/-- C15: for `craterDepth ≥ 0`, a distance `d ≥ 0` and any radius (a radius below the
distance, negative or zero, only gives 0), the crater term
is `craterDepth * (1 - (d / craterRadius)^2)` when `d < craterRadius` and 0 otherwise; it
is `craterDepth` at the centre when the radius is positive, 0 at and beyond the rim and
for a zero radius, lies in `[0, craterDepth]`, and does not increase with `d`. -/
theorem craterEffect_profile (d craterRadius craterDepth : ℝ) (hd : 0 ≤ d)
    (hD : 0 ≤ craterDepth) :
    (d < craterRadius →
      craterEffect d craterRadius craterDepth
        = craterDepth * (1 - (d / craterRadius) ^ 2)) ∧
    (craterRadius ≤ d → craterEffect d craterRadius craterDepth = 0) ∧
    (0 < craterRadius → craterEffect 0 craterRadius craterDepth = craterDepth) ∧
    craterEffect d 0 craterDepth = 0 ∧
    0 ≤ craterEffect d craterRadius craterDepth ∧
    craterEffect d craterRadius craterDepth ≤ craterDepth ∧
    ∀ e : ℝ, d ≤ e →
      craterEffect e craterRadius craterDepth ≤ craterEffect d craterRadius craterDepth := by
  have hin : ∀ t : ℝ, 0 ≤ t → t < craterRadius →
      0 ≤ t / craterRadius * (t / craterRadius) ∧
      t / craterRadius * (t / craterRadius) ≤ 1 := by
    intro t ht htR
    have hpos : 0 < craterRadius := lt_of_le_of_lt ht htR
    have h0 : 0 ≤ t / craterRadius := div_nonneg ht (le_of_lt hpos)
    have h1 : t / craterRadius ≤ 1 := (div_le_one hpos).mpr (le_of_lt htR)
    exact ⟨mul_nonneg h0 h0, by nlinarith⟩
  have hnn : ∀ t : ℝ, 0 ≤ t → 0 ≤ craterEffect t craterRadius craterDepth := by
    intro t ht
    unfold craterEffect
    split_ifs with h
    · obtain ⟨-, h1⟩ := hin t ht h
      exact mul_nonneg hD (by linarith)
    · exact le_refl _
  refine ⟨?_, ?_, ?_, ?_, hnn d hd, ?_, ?_⟩
  · intro h
    simp only [craterEffect, if_pos h, pow_two]
  · intro h
    simp only [craterEffect, if_neg (not_lt.mpr h)]
  · intro h
    simp [craterEffect, h]
  · simp only [craterEffect, if_neg (not_lt.mpr hd)]
  · unfold craterEffect
    split_ifs with h
    · obtain ⟨h0, -⟩ := hin d hd h
      nlinarith
    · exact hD
  · intro e hde
    by_cases he : e < craterRadius
    · have hdR : d < craterRadius := lt_of_le_of_lt hde he
      have hpos : 0 < craterRadius := lt_of_le_of_lt hd hdR
      simp only [craterEffect, if_pos he, if_pos hdR]
      have h0 : 0 ≤ d / craterRadius := div_nonneg hd (le_of_lt hpos)
      have h1 : d / craterRadius ≤ e / craterRadius :=
        div_le_div_of_nonneg_right hde (le_of_lt hpos)
      have h2 : d / craterRadius * (d / craterRadius)
          ≤ e / craterRadius * (e / craterRadius) :=
        mul_le_mul h1 h1 h0 (le_trans h0 h1)
      nlinarith
    · have : craterEffect e craterRadius craterDepth = 0 := by
        simp only [craterEffect, if_neg he]
      rw [this]
      exact hnn d hd

/-- C15 at the fully grown crater of radius 40 and depth 50, 20 away from the centre:
the term is `50 * (1 - (20 / 40)^2) = 37.5`. -/
theorem craterEffect_profile_witness :
    craterEffect 20 40 50 = 50 * (1 - (20 / 40 : ℝ) ^ 2) ∧ craterEffect 0 40 50 = 50 ∧
    craterEffect 40 40 50 = 0 := by
  obtain ⟨h1, h2, h3, -⟩ :=
    craterEffect_profile 20 40 50 (by norm_num) (by norm_num)
  obtain ⟨-, h4, -⟩ :=
    craterEffect_profile 40 40 50 (by norm_num) (by norm_num)
  exact ⟨h1 (by norm_num), h3 (by norm_num), h4 (le_refl _)⟩

/-! ## Waypoints (C16, C17) -/

theorem run4_cons (σ : State4) (e : Event4) (es : List Event4) :
    run4 σ (e :: es) = run4 (step4 σ e) es := rfl

/-- Every handler of `main copy 4.js` leaves at most one waypoint. -/
theorem step4_waypoints (σ : State4) (e : Event4) (h : σ.waypoints.length ≤ 1) :
    (step4 σ e).waypoints.length ≤ 1 := by
  cases e with
  | csvLoad data => exact h
  | mousedown button now =>
    simp only [step4, mousedown4]
    split_ifs <;> exact h
  | mouseup button now hit =>
    simp only [step4, mouseup4]
    split_ifs
    · exact h
    · exact h
    · cases hit with
      | none => exact h
      | some point => simp
  | animate => exact h

theorem run4_waypoints (es : List Event4) (σ : State4) (h : σ.waypoints.length ≤ 1) :
    (run4 σ es).waypoints.length ≤ 1 := by
  induction es generalizing σ with
  | nil => exact h
  | cons e es ih => exact ih (step4 σ e) (step4_waypoints σ e h)

theorem pinMeshes_append_pin (scene : List SceneObj) (n : Nat) :
    pinMeshes (sceneAdd scene ⟨n, ObjKind.pin⟩) = pinMeshes scene ++ [⟨n, ObjKind.pin⟩] := by
  simp [pinMeshes, sceneAdd, List.filter_append]

theorem pinMeshes_append_asteroid (scene : List SceneObj) (n : Nat) :
    pinMeshes (sceneAdd scene ⟨n, ObjKind.asteroid⟩) = pinMeshes scene := by
  simp [pinMeshes, sceneAdd, List.filter_append]

theorem pinMeshes_remove (scene : List SceneObj) (o : SceneObj) :
    pinMeshes (sceneRemove scene o) = (pinMeshes scene).erase o := by
  simp only [pinMeshes, sceneRemove]
  exact (List.erase_filter _ _).symm

theorem pinMeshes_remove_asteroid (scene : List SceneObj) (o : SceneObj)
    (h : o.kind = ObjKind.asteroid) : pinMeshes (sceneRemove scene o) = pinMeshes scene := by
  rw [pinMeshes_remove]
  apply List.erase_of_not_mem
  intro hmem
  have := (List.mem_filter.mp hmem).2
  simp [h] at this

theorem waypointInv_init (s0 : ℝ) : WaypointInv (init s0) := by
  simp [WaypointInv, init, pinMeshes]

theorem waypointInv_mousedown (σ : State) (button : Nat) (hit : Option Vec3)
    (h : WaypointInv σ) : WaypointInv (mousedown σ button hit) := by
  obtain ⟨hw, ha⟩ := h
  unfold mousedown
  split_ifs
  · exact ⟨hw, ha⟩
  · cases hit with
    | none => exact ⟨hw, ha⟩
    | some point =>
      refine ⟨?_, ha⟩
      cases hwp : σ.waypoint with
      | none =>
        rw [hwp] at hw
        simp only [pinMeshes_append_pin, hw.1, hw.2]
        simp
      | some wp =>
        rw [hwp] at hw
        obtain ⟨-, -, -, hp, hl⟩ := hw
        simp only [pinMeshes_append_pin, pinMeshes_remove, hp, hl]
        simp

theorem waypointInv_launch (σ : State) (camera : Vec3) (s : ℝ) (h : WaypointInv σ) :
    WaypointInv (launch σ camera s) := by
  obtain ⟨hw, ha⟩ := h
  unfold launch
  cases hwp : σ.waypoint with
  | none =>
    simp only
    refine ⟨?_, ha⟩
    rw [hwp]
    rw [hwp] at hw
    exact hw
  | some wp =>
    rw [hwp] at hw
    obtain ⟨hk, hi, he, hp, hl⟩ := hw
    have hscene : pinMeshes (match σ.asteroid with
        | some a => sceneRemove σ.scene a.mesh
        | none => σ.scene) = [wp.mesh] := by
      cases hast : σ.asteroid with
      | none => exact hp
      | some a =>
        simp only
        rw [pinMeshes_remove_asteroid _ _ (ha a hast), hp]
    refine ⟨?_, ?_⟩
    · simp only [hwp, pinMeshes_append_asteroid, hscene]
      exact ⟨hk, Nat.lt_succ_of_lt hi, Nat.lt_succ_of_lt he, trivial, hl⟩
    · intro a hast
      simp only [Option.some.injEq] at hast
      rw [← hast]

theorem asteroidMotion_mesh (σ : State) (a : Asteroid)
    (h : (asteroidMotion σ).asteroid = some a) :
    ∃ b, σ.asteroid = some b ∧ a.mesh = b.mesh := by
  unfold asteroidMotion at h
  cases hast : σ.asteroid with
  | none =>
    rw [hast] at h
    simp only at h
    rw [hast] at h
    exact absurd h (by simp)
  | some b =>
    rw [hast] at h
    simp only at h
    split_ifs at h
    simp only [Option.some.injEq] at h
    exact ⟨b, rfl, by rw [← h]⟩

theorem waypointInv_animate (σ : State) (s : ℝ) (h : WaypointInv σ) :
    WaypointInv (animate σ s) := by
  obtain ⟨hw, ha⟩ := h
  obtain ⟨f1, f2, f3, f4⟩ := animate_frame σ s
  refine ⟨?_, ?_⟩
  · rw [f1, f2, f3, f4]
    exact hw
  · intro a hast
    rw [animate_asteroid] at hast
    obtain ⟨b, hb, hm⟩ := asteroidMotion_mesh σ a hast
    rw [hm]
    exact ha b hb

theorem waypointInv_run (es : List Event) (σ : State) (h : WaypointInv σ) :
    WaypointInv (run σ es) := by
  induction es generalizing σ with
  | nil => exact h
  | cons e es ih =>
    rw [run_cons]
    apply ih
    cases e with
    | mousedown button hit => exact waypointInv_mousedown σ button hit h
    | launch camera slider => exact waypointInv_launch σ camera slider h
    | animate slider => exact waypointInv_animate σ slider h

/-- C16: in every state `main.js` reaches by mousedown events (with or without a hit),
launches and ticks, the scene holds at most one pin mesh and the container at most one
label, and they are those of the current `waypoint`; a primary click with a hit leaves
neither the previous pin in the scene nor the previous label in the container. In
`main copy 4.js`, `waypoints.length ≤ 1` in every reachable state. -/
theorem at_most_one_waypoint (s0 : ℝ) (es : List Event) (es4 : List Event4) :
    (pinMeshes (run (init s0) es).scene).length ≤ 1 ∧
    (run (init s0) es).labels.length ≤ 1 ∧
    pinMeshes (run (init s0) es).scene
      = ((run (init s0) es).waypoint.map Waypoint.mesh).toList ∧
    (run (init s0) es).labels = ((run (init s0) es).waypoint.map Waypoint.el).toList ∧
    (∀ wp point, (run (init s0) es).waypoint = some wp →
      wp.mesh ∉ (mousedown (run (init s0) es) 0 (some point)).scene ∧
      wp.el ∉ (mousedown (run (init s0) es) 0 (some point)).labels ∧
      (mousedown (run (init s0) es) 0 (some point)).waypoint
        = some ⟨⟨(run (init s0) es).nextId, ObjKind.pin⟩,
            (run (init s0) es).nextId + 1, point⟩) ∧
    (run4 init4 es4).waypoints.length ≤ 1 := by
  have hinv := waypointInv_run es (init s0) (waypointInv_init s0)
  generalize run (init s0) es = σ at hinv
  obtain ⟨hw, -⟩ := hinv
  have h4 := run4_waypoints es4 init4 (by simp [init4])
  cases hwp : σ.waypoint with
  | none =>
    rw [hwp] at hw
    refine ⟨by simp [hw.1], by simp [hw.2], by simp [hw.1], by simp [hw.2], ?_, h4⟩
    intro wp point h
    exact absurd h (by simp)
  | some wp =>
    rw [hwp] at hw
    obtain ⟨hk, hi, he, hp, hl⟩ := hw
    refine ⟨by simp [hp], by simp [hl], by simp [hp], by simp [hl], ?_, h4⟩
    intro wp1 point h
    simp only [Option.some.injEq] at h
    rw [← h]
    have hnot : wp.mesh ∉ sceneRemove σ.scene wp.mesh := by
      intro hmem
      have : wp.mesh ∈ pinMeshes (sceneRemove σ.scene wp.mesh) :=
        List.mem_filter.mpr ⟨hmem, by simp [hk]⟩
      rw [pinMeshes_remove, hp] at this
      simp at this
    refine ⟨?_, ?_, ?_⟩
    · simp only [mousedown, hwp, sceneAdd]
      simp only [ne_eq, not_true_eq_false, if_false, List.mem_append, List.mem_singleton,
        not_or]
      refine ⟨hnot, ?_⟩
      intro heq
      rw [heq] at hi
      exact absurd hi (lt_irrefl _)
    · simp only [mousedown, hwp, hl]
      simp only [ne_eq, not_true_eq_false, if_false, List.erase_cons_head, List.nil_append,
        List.mem_singleton]
      omega
    · simp [mousedown, hwp]

/-- C16 after one click at `(0, 0, 1000)` and a second one at `(1000, 0, 0)`: the pin 3
and the label 4 of the first waypoint are gone. -/
theorem at_most_one_waypoint_witness :
    (⟨3, ObjKind.pin⟩ : SceneObj)
      ∉ (mousedown (run (init 10) [Event.mousedown 0 (some ⟨0, 0, 1000⟩)]) 0
          (some ⟨1000, 0, 0⟩)).scene ∧
    4 ∉ (mousedown (run (init 10) [Event.mousedown 0 (some ⟨0, 0, 1000⟩)]) 0
          (some ⟨1000, 0, 0⟩)).labels := by
  obtain ⟨-, -, -, -, h, -⟩ :=
    at_most_one_waypoint 10 [Event.mousedown 0 (some ⟨0, 0, 1000⟩)] []
  obtain ⟨h1, h2, -⟩ := h ⟨⟨3, ObjKind.pin⟩, 4, ⟨0, 0, 1000⟩⟩ ⟨1000, 0, 0⟩
    (by simp [run, step, mousedown, init])
  exact ⟨h1, h2⟩

/-- C17: in `main copy 4.js`, with the registry loaded, after a primary press at time `t0`
a primary release at time `t1` is ignored when `t1 - t0 > 200`, whatever the ray hits;
when `t1 - t0 ≤ 200` and the ray hits the sphere at `point`, the waypoints become the
single waypoint at `point`. -/
theorem click_within_drag_threshold (σ : State4) (t0 t1 : Int) (hit : Option Vec3)
    (hloaded : σ.csvLoaded = true) :
    (t1 - t0 > 200 → mouseup4 (mousedown4 σ 0 t0) 0 t1 hit = mousedown4 σ 0 t0) ∧
    (t1 - t0 ≤ 200 → ∀ point, hit = some point →
      (mouseup4 (mousedown4 σ 0 t0) 0 t1 hit).waypoints = [⟨σ.nextId, point⟩]) := by
  constructor
  · intro h
    simp [mouseup4, mousedown4, hloaded, h]
  · intro h point hhit
    simp [mouseup4, mousedown4, hloaded, not_lt.mpr h, hhit]

/-- C17 at a release exactly 200 ms after the press (a click) and at one 201 ms after
it (a drag). -/
theorem click_within_drag_threshold_witness :
    (mouseup4 (mousedown4 (csvLoad init4 []) 0 1000) 0 1200 (some ⟨0, 0, 1000⟩)).waypoints
      = [⟨0, ⟨0, 0, 1000⟩⟩] ∧
    mouseup4 (mousedown4 (csvLoad init4 []) 0 1000) 0 1201 (some ⟨0, 0, 1000⟩)
      = mousedown4 (csvLoad init4 []) 0 1000 := by
  constructor
  · exact (click_within_drag_threshold (csvLoad init4 []) 1000 1200 (some ⟨0, 0, 1000⟩)
      rfl).2 (by norm_num) ⟨0, 0, 1000⟩ rfl
  · exact (click_within_drag_threshold (csvLoad init4 []) 1000 1201 (some ⟨0, 0, 1000⟩)
      rfl).1 (by norm_num)

/-! ## Loading the registry (C18) and the zero vector (C19) -/

/-- C18 fails as stated: a row named `X` whose latitude field reads `Infinity` (which
`parseFloat` turns into `+Infinity`, a number that is not `NaN`) passes the filter, so the
registry holds a record with a latitude that is not finite. -/
theorem infinite_coordinate_enters_registry :
    ∃ r ∈ loadCountries [⟨some "X", JsNum.posInf, JsNum.fin 0⟩],
      r.country = some "X" ∧ r.lat = JsNum.posInf ∧ r.lat.isFinite = false := by
  refine ⟨⟨some "X", JsNum.posInf, JsNum.fin 0⟩, ?_, rfl, rfl, rfl⟩
  simp only [loadCountries, List.map_cons, List.map_nil, Option.map_some']
  have ht : jsTrim "X" = "X" := by decide
  rw [ht]
  simp [truthy, JsNum.isNaN]

/-- C18 as amended: after loading, every record of `countriesData` has a non-empty name,
the trimmed `Country` field of its row, and a latitude and a longitude that are not `NaN`;
a row whose name is missing or blank after trimming, or one of whose coordinates is
`NaN`, gives no record. -/
theorem loadCountries_valid (data : List CsvRow) :
    (∀ r ∈ loadCountries data,
      (∃ row ∈ data, ∃ name, row.Country = some name ∧ r.country = some (jsTrim name) ∧
        jsTrim name ≠ "" ∧ r.lat = row.Latitude ∧ r.lon = row.Longitude) ∧
      r.lat.isNaN = false ∧ r.lon.isNaN = false) ∧
    (∀ row ∈ data,
      (row.Country = none ∨ row.Country.map jsTrim = some "" ∨
        row.Latitude = JsNum.nan ∨ row.Longitude = JsNum.nan) →
      (⟨row.Country.map jsTrim, row.Latitude, row.Longitude⟩ : Row4)
        ∉ loadCountries data) := by
  constructor
  · intro r hr
    simp only [loadCountries, List.mem_filter, List.mem_map, Bool.and_eq_true,
      Bool.not_eq_true'] at hr
    obtain ⟨⟨row, hrow, hmap⟩, ⟨htr, hla⟩, hlo⟩ := hr
    refine ⟨?_, hla, hlo⟩
    rw [← hmap] at htr
    cases hc : row.Country with
    | none => simp [truthy, hc] at htr
    | some name =>
      refine ⟨row, hrow, name, hc, ?_, ?_, ?_, ?_⟩
      · rw [← hmap, hc]; rfl
      · simpa [truthy, hc] using htr
      · rw [← hmap]
      · rw [← hmap]
  · intro row _ hbad hmem
    simp only [loadCountries, List.mem_filter, Bool.and_eq_true, Bool.not_eq_true'] at hmem
    obtain ⟨-, ⟨htr, hla⟩, hlo⟩ := hmem
    rcases hbad with h | h | h | h
    · simp [truthy, h] at htr
    · simp [truthy, h] at htr
    · simp [JsNum.isNaN, h] at hla
    · simp [JsNum.isNaN, h] at hlo

/-- C18 as amended, on a table of four rows: the row whose name is blank, the row whose
name is a no-break space and the row with a `NaN` latitude give no record. -/
theorem loadCountries_valid_witness :
    (⟨some "", JsNum.fin 1, JsNum.fin 1⟩ : Row4)
      ∉ loadCountries [⟨some " Testland ", JsNum.fin 0, JsNum.fin 0⟩,
          ⟨some "  ", JsNum.fin 1, JsNum.fin 1⟩, ⟨some "\u00a0", JsNum.fin 1, JsNum.fin 1⟩,
          ⟨some "N", JsNum.nan, JsNum.fin 0⟩] ∧
    (⟨some "N", JsNum.nan, JsNum.fin 0⟩ : Row4)
      ∉ loadCountries [⟨some " Testland ", JsNum.fin 0, JsNum.fin 0⟩,
          ⟨some "  ", JsNum.fin 1, JsNum.fin 1⟩, ⟨some "\u00a0", JsNum.fin 1, JsNum.fin 1⟩,
          ⟨some "N", JsNum.nan, JsNum.fin 0⟩] := by
  have hb : jsTrim "  " = "" := by decide
  have hs : jsTrim "\u00a0" = "" := by decide
  have hn : jsTrim "N" = "N" := by decide
  obtain ⟨-, h⟩ := loadCountries_valid [⟨some " Testland ", JsNum.fin 0, JsNum.fin 0⟩,
    ⟨some "  ", JsNum.fin 1, JsNum.fin 1⟩, ⟨some "\u00a0", JsNum.fin 1, JsNum.fin 1⟩,
    ⟨some "N", JsNum.nan, JsNum.fin 0⟩]
  constructor
  · have := h ⟨some "\u00a0", JsNum.fin 1, JsNum.fin 1⟩ (by simp)
      (Or.inr (Or.inl (by simp [hs])))
    simpa [hs] using this
  · have := h ⟨some "N", JsNum.nan, JsNum.fin 0⟩ (by simp) (Or.inr (Or.inr (Or.inl rfl)))
    simpa [hn] using this

/-- The object `posToLatLon` returns for the zero vector. -/
theorem posToLatLonJs_zero :
    (posToLatLonJs Vec3.zero).lat = JsNum.nan ∧
    (posToLatLonJs Vec3.zero).lon = JsNum.fin 0 := by
  have hlen : (⟨0, 0, 0⟩ : Vec3).length = 0 := by simp [Vec3.length]
  constructor
  · simp [posToLatLonJs, Vec3.zero, hlen, JsNum.divLength, JsNum.asin, JsNum.radToDeg]
  · have : atan2 0 0 = 0 := by
      simp only [atan2]
      exact Complex.arg_zero
    simp [posToLatLonJs, Vec3.zero, this, JsNum.radToDeg]

/-- C19 fails as stated: for the zero vector `posToLatLon` returns an object, whose
latitude is `NaN` (from `0/0`) and whose longitude is 0; no error is reported. -/
theorem posToLatLon_zero_is_nan :
    (posToLatLonJs Vec3.zero).lat = JsNum.nan ∧
    (posToLatLonJs Vec3.zero).lon = JsNum.fin 0 ∧
    (posToLatLonJs Vec3.zero).lat.isNaN = true := by
  obtain ⟨h1, h2⟩ := posToLatLonJs_zero
  exact ⟨h1, h2, by rw [h1]; rfl⟩

/-- C19 as amended: for the zero vector `posToLatLon` reports no error; it returns an
object whose latitude is `NaN` (from `0/0`) and whose longitude is 0. -/
theorem posToLatLon_zero_returns_object (p : Vec3) (hp : p = Vec3.zero) :
    (posToLatLonJs p).lat = JsNum.nan ∧ (posToLatLonJs p).lat.isNaN = true ∧
    (posToLatLonJs p).lon = JsNum.fin 0 := by
  rw [hp]
  obtain ⟨h1, h2⟩ := posToLatLonJs_zero
  exact ⟨h1, by rw [h1]; rfl, h2⟩

/-- C19 as amended, at the vector `(0, 0, 0)`. -/
theorem posToLatLon_zero_returns_object_witness :
    (posToLatLonJs ⟨0, 0, 0⟩).lat = JsNum.nan ∧ (posToLatLonJs ⟨0, 0, 0⟩).lon = JsNum.fin 0 := by
  obtain ⟨h1, -, h3⟩ := posToLatLon_zero_returns_object ⟨0, 0, 0⟩ rfl
  exact ⟨h1, h3⟩

/-! ## The haversine formula in exact arithmetic

The lemmas of this section are about the formula over the reals. They serve to compare
two distances that are far apart (the registry searches of the two variants); they say
nothing about the last bits of the doubles the program computes, where the value `a` can
round above 1. -/

theorem haversine_eq_a (lat1 lon1 lat2 lon2 : ℝ) :
    haversine lat1 lon1 lat2 lon2
      = 6371 * 2 * atan2 (Real.sqrt (haversineA lat1 lon1 lat2 lon2))
          (Real.sqrt (1 - haversineA lat1 lon1 lat2 lon2)) := rfl

theorem degToRad_sub (a b : ℝ) : degToRad (a - b) = degToRad a - degToRad b := by
  unfold degToRad
  ring

/-- The unit vector of a latitude and a longitude has length 1. -/
theorem unit_dot_self (lat lon : ℝ) :
    (latLonToPos lat lon 1).dot (latLonToPos lat lon 1) = 1 := by
  simp only [Vec3.dot, latLonToPos, one_mul]
  have h1 := Real.sin_sq_add_cos_sq (degToRad lat)
  have h2 := Real.sin_sq_add_cos_sq (degToRad lon)
  nlinarith [h1, h2]

/-- The dot product of the unit vectors of two points. -/
theorem dot_latLon (lat1 lon1 lat2 lon2 : ℝ) :
    (latLonToPos lat1 lon1 1).dot (latLonToPos lat2 lon2 1)
      = Real.cos (degToRad lat1) * Real.cos (degToRad lat2)
          * Real.cos (degToRad lon2 - degToRad lon1)
        + Real.sin (degToRad lat1) * Real.sin (degToRad lat2) := by
  simp only [Vec3.dot, latLonToPos, one_mul, Real.cos_sub]
  ring

/-- The value `a` of `haversine` is half of one minus the dot product of the unit
vectors of the two points. -/
theorem haversineA_eq_dot (lat1 lon1 lat2 lon2 : ℝ) :
    haversineA lat1 lon1 lat2 lon2
      = (1 - (latLonToPos lat1 lon1 1).dot (latLonToPos lat2 lon2 1)) / 2 := by
  rw [dot_latLon]
  unfold haversineA
  have h1 := Real.sin_sq_eq_half_sub (degToRad (lat2 - lat1) / 2)
  have h2 := Real.sin_sq_eq_half_sub (degToRad (lon2 - lon1) / 2)
  have e1 : 2 * (degToRad (lat2 - lat1) / 2) = degToRad lat2 - degToRad lat1 := by
    rw [degToRad_sub]; ring
  have e2 : 2 * (degToRad (lon2 - lon1) / 2) = degToRad lon2 - degToRad lon1 := by
    rw [degToRad_sub]; ring
  rw [e1, Real.cos_sub] at h1
  rw [e2] at h2
  rw [pow_two] at h1 h2
  rw [h1, mul_assoc, h2]
  ring

/-- The inequality of Cauchy and Schwarz for `Vector3.dot`. -/
theorem Vec3.dot_sq_le (a b : Vec3) : (a.dot b) ^ 2 ≤ a.dot a * b.dot b := by
  simp only [Vec3.dot]
  nlinarith [sq_nonneg (a.x * b.y - a.y * b.x), sq_nonneg (a.y * b.z - a.z * b.y),
    sq_nonneg (a.z * b.x - a.x * b.z)]

theorem dot_unit_bounds (lat1 lon1 lat2 lon2 : ℝ) :
    -1 ≤ (latLonToPos lat1 lon1 1).dot (latLonToPos lat2 lon2 1) ∧
    (latLonToPos lat1 lon1 1).dot (latLonToPos lat2 lon2 1) ≤ 1 := by
  have h := Vec3.dot_sq_le (latLonToPos lat1 lon1 1) (latLonToPos lat2 lon2 1)
  rw [unit_dot_self, unit_dot_self] at h
  have : |(latLonToPos lat1 lon1 1).dot (latLonToPos lat2 lon2 1)| ≤ 1 := by
    apply abs_le_of_sq_le_sq _ (by norm_num)
    simpa using h
  exact abs_le.mp this

/-- In exact arithmetic the value `a` of `haversine` lies between 0 and 1. -/
theorem haversineA_bounds (lat1 lon1 lat2 lon2 : ℝ) :
    0 ≤ haversineA lat1 lon1 lat2 lon2 ∧ haversineA lat1 lon1 lat2 lon2 ≤ 1 := by
  rw [haversineA_eq_dot]
  obtain ⟨h1, h2⟩ := dot_unit_bounds lat1 lon1 lat2 lon2
  constructor <;> linarith

/-- For `a` between 0 and 1, `Math.atan2(sqrt a, sqrt (1 - a))` is `asin (sqrt a)`. -/
theorem atan2_sqrt (a : ℝ) (h0 : 0 ≤ a) (h1 : a ≤ 1) :
    atan2 (Real.sqrt a) (Real.sqrt (1 - a)) = Real.arcsin (Real.sqrt a) := by
  unfold atan2
  rw [Complex.arg_of_re_nonneg (by simp [Real.sqrt_nonneg]), abs_mk]
  have h : Real.sqrt (1 - a) * Real.sqrt (1 - a) + Real.sqrt a * Real.sqrt a = 1 := by
    rw [Real.mul_self_sqrt (by linarith), Real.mul_self_sqrt h0]
    ring
  rw [h, Real.sqrt_one, div_one]

/-- For `d` between -1 and 1, twice `asin (sqrt ((1 - d) / 2))` is `acos d`. -/
theorem two_arcsin_sqrt (d : ℝ) (h0 : -1 ≤ d) (h1 : d ≤ 1) :
    2 * Real.arcsin (Real.sqrt ((1 - d) / 2)) = Real.arccos d := by
  have ha0 : 0 ≤ (1 - d) / 2 := by linarith
  have ha1 : (1 - d) / 2 ≤ 1 := by linarith
  have hs0 : 0 ≤ Real.sqrt ((1 - d) / 2) := Real.sqrt_nonneg _
  have hs1 : Real.sqrt ((1 - d) / 2) ≤ 1 := by
    have := Real.sqrt_le_sqrt ha1
    rwa [Real.sqrt_one] at this
  have hcos : Real.cos (2 * Real.arcsin (Real.sqrt ((1 - d) / 2))) = d := by
    rw [Real.cos_two_mul, Real.cos_sq', Real.sin_arcsin (by linarith) hs1,
      Real.sq_sqrt ha0]
    ring
  rw [← hcos, Real.arccos_cos]
  · rw [hcos]
  · have := Real.arcsin_nonneg.mpr hs0
    linarith
  · have := Real.arcsin_le_pi_div_two (Real.sqrt ((1 - d) / 2))
    linarith

/-- In exact arithmetic the haversine distance is the radius 6371 times the angle between
the unit vectors of the two points. -/
theorem haversine_eq_arccos (lat1 lon1 lat2 lon2 : ℝ) :
    haversine lat1 lon1 lat2 lon2
      = 6371 * Real.arccos ((latLonToPos lat1 lon1 1).dot (latLonToPos lat2 lon2 1)) := by
  obtain ⟨ha0, ha1⟩ := haversineA_bounds lat1 lon1 lat2 lon2
  obtain ⟨hd0, hd1⟩ := dot_unit_bounds lat1 lon1 lat2 lon2
  rw [haversine_eq_a, atan2_sqrt _ ha0 ha1, haversineA_eq_dot, ← two_arcsin_sqrt _ hd0 hd1]
  ring

/-! ## The registry search of `main copy 4.js` (C20) -/

/-- The planar distance of `main copy 4.js` for a record with finite coordinates. -/
theorem planarDistance_toRow4 (lat lon : ℝ) (p : Place) :
    planarDistance lat lon p.toRow4
      = JsNum.fin (Real.sqrt ((lat - p.lat) * (lat - p.lat)
          + (lon - p.lon) * (lon - p.lon))) := rfl

/-- The haversine distance of two points of the equator. -/
theorem haversine_equator (lon1 lon2 : ℝ) :
    haversine 0 lon1 0 lon2
      = 6371 * Real.arccos (Real.cos (degToRad lon2 - degToRad lon1)) := by
  have h0 : degToRad 0 = 0 := by
    unfold degToRad
    ring
  rw [haversine_eq_arccos, dot_latLon, h0]
  simp

/-- C20 fails as stated: the registry holds `B` at `(0, 170)` and `A` at `(0, -179)`, the
query is `(0, 179)`, all within range. `main copy 4.js` answers `B` (planar distances 9
and 358), while `A` is strictly nearer in haversine distance (2 degrees of arc across
the antimeridian against 9), which is what `main copy 6.js` answers. -/
theorem planar_nearest_differs_from_haversine :
    findNearestCountry4
        ([⟨"B", 0, 170⟩, ⟨"A", 0, -179⟩].map Place.toRow4) 0 179 = some "B" ∧
    findNearestCountry
        ([⟨"B", 0, 170⟩, ⟨"A", 0, -179⟩].map Place.toCountryRecord) 0 179 = "A" ∧
    haversine 0 179 0 (-179) < haversine 0 179 0 170 := by
  have hpi := Real.pi_pos
  have hlt : haversine 0 179 0 (-179) < haversine 0 179 0 170 := by
    rw [haversine_equator, haversine_equator]
    have e1 : degToRad (-179) - degToRad 179 = -(2 * Real.pi - Real.pi / 90) := by
      unfold degToRad
      ring
    have e2 : degToRad 170 - degToRad 179 = -(Real.pi / 20) := by
      unfold degToRad
      ring
    rw [e1, e2, Real.cos_neg, Real.cos_neg, Real.cos_two_pi_sub,
      Real.arccos_cos (by positivity) (by linarith),
      Real.arccos_cos (by positivity) (by linarith)]
    linarith
  refine ⟨?_, ?_, hlt⟩
  · have hB : Real.sqrt (((0 : ℝ) - 0) * (0 - 0) + (179 - 170) * (179 - 170)) = 9 := by
      rw [show ((0 : ℝ) - 0) * (0 - 0) + (179 - 170) * (179 - 170) = 9 ^ 2 by norm_num]
      exact Real.sqrt_sq (by norm_num)
    have hA : Real.sqrt (((0 : ℝ) - 0) * (0 - 0) + (179 - -179) * (179 - -179)) = 358 := by
      rw [show ((0 : ℝ) - 0) * (0 - 0) + (179 - -179) * (179 - -179) = 358 ^ 2 by norm_num]
      exact Real.sqrt_sq (by norm_num)
    have hnot : ¬ JsNum.lt (planarDistance 0 179 (Place.toRow4 ⟨"A", 0, -179⟩))
        (planarDistance 0 179 (Place.toRow4 ⟨"B", 0, 170⟩)) := by
      rw [planarDistance_toRow4, planarDistance_toRow4]
      simp only [hA, hB]
      show ¬ ((358 : ℝ) < 9)
      norm_num
    simp only [findNearestCountry4, List.map_cons, List.map_nil, scanNearest]
    rw [if_neg hnot]
    rfl
  · simp only [findNearestCountry, List.map_cons, List.map_nil, scanNearest,
      Place.toCountryRecord]
    rw [if_pos hlt]

/-- The comparison `<` of numbers is transitive. -/
theorem JsNum.lt_trans {a b c : JsNum} (h1 : JsNum.lt a b) (h2 : JsNum.lt b c) :
    JsNum.lt a c := by
  cases a <;> cases b <;> cases c <;> simp [JsNum.lt] at h1 h2 ⊢
  linarith

/-- If `a < b` and `c < b` is false for a number `c`, not `NaN`, then `a < c`. -/
theorem JsNum.lt_of_lt_of_not_lt {a b c : JsNum} (hc : c ≠ JsNum.nan)
    (h1 : JsNum.lt a b) (h2 : ¬ JsNum.lt c b) : JsNum.lt a c := by
  cases a <;> cases b <;> cases c <;> simp [JsNum.lt] at h1 h2 hc ⊢
  linarith

theorem JsNum.lt_asymm {a b : JsNum} (h : JsNum.lt a b) : ¬ JsNum.lt b a := by
  cases a <;> cases b <;> simp [JsNum.lt] at h ⊢
  linarith

theorem JsNum.lt_irrefl (a : JsNum) : ¬ JsNum.lt a a := by
  cases a <;> simp [JsNum.lt]

/-- The loop of `findNearestCountry` on computed distances, none of them `NaN`, keeps the
first minimum: if `closest` is strictly nearer than the records before it and no record
visited after it is strictly nearer, the record returned splits the whole list in the
same way. -/
theorem scanNearest_split_js {α : Type} (dist : α → JsNum) (rest pre : List α) (c : α)
    (mid : List α) (hrest : ∀ x ∈ rest, dist x ≠ JsNum.nan)
    (hmid : ∀ x ∈ mid, dist x ≠ JsNum.nan)
    (h1 : ∀ x ∈ pre, JsNum.lt (dist c) (dist x))
    (h2 : ∀ x ∈ mid, ¬ JsNum.lt (dist x) (dist c)) :
    ∃ pre1 r post1, pre ++ c :: (mid ++ rest) = pre1 ++ r :: post1 ∧
      scanNearest JsNum.lt dist c (dist c) rest = r ∧
      (∀ x ∈ pre1, JsNum.lt (dist r) (dist x)) ∧
      (∀ x ∈ post1, ¬ JsNum.lt (dist x) (dist r)) := by
  induction rest generalizing pre c mid with
  | nil => exact ⟨pre, c, mid, by simp, rfl, h1, h2⟩
  | cons x rest ih =>
    have hrest1 : ∀ y ∈ rest, dist y ≠ JsNum.nan :=
      fun y hy => hrest y (List.mem_cons_of_mem _ hy)
    have hx : dist x ≠ JsNum.nan := hrest x (List.mem_cons_self _ _)
    by_cases hlt : JsNum.lt (dist x) (dist c)
    · obtain ⟨pre1, r, post1, e, hr, hp, hq⟩ := ih (pre ++ c :: mid) x [] hrest1
        (by simp)
        (by
          intro y hy
          rcases List.mem_append.mp hy with hy | hy
          · exact JsNum.lt_trans hlt (h1 y hy)
          · rcases List.mem_cons.mp hy with hy | hy
            · rw [hy]; exact hlt
            · exact JsNum.lt_of_lt_of_not_lt (hmid y hy) hlt (h2 y hy))
        (by simp)
      refine ⟨pre1, r, post1, ?_, ?_, hp, hq⟩
      · rw [← e]; simp
      · rw [← hr]
        simp only [scanNearest, if_pos hlt]
    · obtain ⟨pre1, r, post1, e, hr, hp, hq⟩ := ih pre c (mid ++ [x]) hrest1
        (by
          intro y hy
          rcases List.mem_append.mp hy with hy | hy
          · exact hmid y hy
          · rw [List.mem_singleton.mp hy]; exact hx)
        h1
        (by
          intro y hy
          rcases List.mem_append.mp hy with hy | hy
          · exact h2 y hy
          · rw [List.mem_singleton.mp hy]; exact hlt)
      refine ⟨pre1, r, post1, ?_, ?_, hp, hq⟩
      · rw [← e]; simp
      · rw [← hr]
        simp only [scanNearest, if_neg hlt]

/-- With the exact planar distance, `findNearestCountry4With` is `findNearestCountry4`. -/
theorem findNearestCountry4_eq_with (countriesData : List Row4) (lat lon : ℝ) :
    findNearestCountry4 countriesData lat lon
      = findNearestCountry4With (planarDistance lat lon) countriesData := by
  cases countriesData <;> rfl

/-- C20 as amended: whatever numbers `dist r` the program computes for
`Math.hypot(lat - r.lat, lon - r.lon)`, none of them `NaN`, `findNearestCountry` of
`main copy 4.js` on a non-empty registry returns the `country` of the record `r` at the
smallest index whose computed distance is minimal: the registry is `pre ++ r :: post`,
every record before `r` has a strictly larger computed distance and no record has a
strictly smaller one (records whose computed distances are equal are tied, and the
earliest wins). -/
theorem findNearestCountry4_first_planar_minimum (dist : Row4 → JsNum)
    (countriesData : List Row4) (hne : countriesData ≠ [])
    (hnan : ∀ r ∈ countriesData, dist r ≠ JsNum.nan) :
    ∃ pre r post, countriesData = pre ++ r :: post ∧
      findNearestCountry4With dist countriesData = r.country ∧
      (∀ x ∈ pre, JsNum.lt (dist r) (dist x)) ∧
      (∀ x ∈ countriesData, ¬ JsNum.lt (dist x) (dist r)) := by
  cases countriesData with
  | nil => exact absurd rfl hne
  | cons c rest =>
    obtain ⟨pre, r, post, e, hr, hp, hq⟩ := scanNearest_split_js dist rest [] c []
      (fun x hx => hnan x (List.mem_cons_of_mem _ hx)) (by simp) (by simp) (by simp)
    simp only [List.nil_append] at e
    refine ⟨pre, r, post, e, by simp only [findNearestCountry4With]; rw [hr], hp, ?_⟩
    intro x hx
    rw [e] at hx
    rcases List.mem_append.mp hx with hx | hx
    · exact JsNum.lt_asymm (hp x hx)
    · rcases List.mem_cons.mp hx with hx | hx
      · rw [hx]; exact JsNum.lt_irrefl _
      · exact hq x hx

/-- The planar distance of `main copy 4.js` from the query `(0, 0)` to a record on an
axis. -/
theorem planarDistance_origin (name : Option String) (a b : ℝ) (d : ℝ) (hd : 0 ≤ d)
    (h : a * a + b * b = d * d) :
    planarDistance 0 0 ⟨name, JsNum.fin a, JsNum.fin b⟩ = JsNum.fin d := by
  simp only [planarDistance, JsNum.sub, JsNum.hypot, zero_sub, neg_mul_neg, h]
  rw [Real.sqrt_mul_self hd]

/-- C20 as amended, on the registry `C (0, 2)`, `A (0, 1)`, `B (1, 0)` with the query
`(0, 0)`, where the distances 2, 1, 1 are computed without rounding: the scan leaves `C`
for `A`, and `B`, at the same distance as `A`, does not replace it. -/
theorem findNearestCountry4_first_planar_minimum_witness :
    findNearestCountry4
      [⟨some "C", JsNum.fin 0, JsNum.fin 2⟩, ⟨some "A", JsNum.fin 0, JsNum.fin 1⟩,
        ⟨some "B", JsNum.fin 1, JsNum.fin 0⟩] 0 0 = some "A" := by
  have hC : planarDistance 0 0 ⟨some "C", JsNum.fin 0, JsNum.fin 2⟩ = JsNum.fin 2 :=
    planarDistance_origin _ 0 2 2 (by norm_num) (by norm_num)
  have hA : planarDistance 0 0 ⟨some "A", JsNum.fin 0, JsNum.fin 1⟩ = JsNum.fin 1 :=
    planarDistance_origin _ 0 1 1 (by norm_num) (by norm_num)
  have hB : planarDistance 0 0 ⟨some "B", JsNum.fin 1, JsNum.fin 0⟩ = JsNum.fin 1 :=
    planarDistance_origin _ 1 0 1 (by norm_num) (by norm_num)
  obtain ⟨pre, r, post, e, hr, hp, hq⟩ := findNearestCountry4_first_planar_minimum
    (planarDistance 0 0)
    [⟨some "C", JsNum.fin 0, JsNum.fin 2⟩, ⟨some "A", JsNum.fin 0, JsNum.fin 1⟩,
      ⟨some "B", JsNum.fin 1, JsNum.fin 0⟩] (by simp)
    (by
      intro r hr
      simp only [List.mem_cons, List.mem_singleton, List.not_mem_nil, or_false] at hr
      rcases hr with h | h | h <;> rw [h]
      · rw [hC]; simp
      · rw [hA]; simp
      · rw [hB]; simp)
  rw [findNearestCountry4_eq_with, hr]
  cases pre with
  | nil =>
    simp only [List.nil_append, List.cons.injEq] at e
    have := hq ⟨some "A", JsNum.fin 0, JsNum.fin 1⟩ (by simp)
    rw [← e.1, hA, hC] at this
    exact absurd (show JsNum.lt (JsNum.fin 1) (JsNum.fin 2) from by
      show (1 : ℝ) < 2
      norm_num) this
  | cons p1 pre1 =>
    cases pre1 with
    | nil =>
      simp only [List.cons_append, List.nil_append, List.cons.injEq] at e
      rw [← e.2.1]
    | cons p2 pre2 =>
      cases pre2 with
      | nil =>
        simp only [List.cons_append, List.nil_append, List.cons.injEq] at e
        have := hp p2 (by simp)
        rw [← e.2.1, ← e.2.2.1, hA, hB] at this
        exact absurd this (by
          show ¬ ((1 : ℝ) < 1)
          norm_num)
      | cons p3 pre3 =>
        simp at e

/-! ## One tick of the projectile (C21) -/

/-- The asteroid after a tick that finds it farther than 10 from its target. -/
theorem animate_far (σ : State) (a : Asteroid) (s : ℝ) (h : σ.asteroid = some a)
    (hd : 10 < Vec3.distanceTo a.target a.position) :
    (animate σ s).asteroid = some
      ⟨a.mesh,
        a.position.add ((Vec3.subVectors a.target a.position).normalize.multiplyScalar 50),
        a.target⟩ := by
  rw [animate_asteroid]
  unfold asteroidMotion
  rw [h]
  simp only [Vec3.distanceTo] at hd
  simp only [gt_iff_lt, if_pos hd]

/-- The asteroid after a tick that finds it within 10 of its target. -/
theorem animate_near (σ : State) (a : Asteroid) (s : ℝ) (h : σ.asteroid = some a)
    (hd : Vec3.distanceTo a.target a.position ≤ 10) :
    (animate σ s).asteroid = none := by
  rw [animate_asteroid]
  unfold asteroidMotion
  rw [h]
  simp only [Vec3.distanceTo] at hd
  simp only [gt_iff_lt, if_neg (not_lt.mpr hd)]

/-- A step of 50 towards a target at distance `d > 0` leaves the distance `|d - 50|`. -/
theorem distance_after_step (p t : Vec3) (hd : 0 < Vec3.distanceTo t p) :
    Vec3.distanceTo t (p.add ((Vec3.subVectors t p).normalize.multiplyScalar 50))
      = |Vec3.distanceTo t p - 50| := by
  simp only [Vec3.distanceTo] at hd ⊢
  have hn := Vec3.normalize_of_pos _ hd
  have h1 : Vec3.subVectors t (p.add ((Vec3.subVectors t p).normalize.multiplyScalar 50))
      = (Vec3.subVectors t p).multiplyScalar (1 - 50 / (Vec3.subVectors t p).length) := by
    rw [hn]
    generalize (Vec3.subVectors t p).length = L at hd
    have hL0 : L ≠ 0 := ne_of_gt hd
    simp only [Vec3.add, Vec3.multiplyScalar, Vec3.subVectors, Vec3.mk.injEq]
    refine ⟨?_, ?_, ?_⟩ <;> field_simp <;> ring
  rw [h1, Vec3.length_multiplyScalar]
  generalize (Vec3.subVectors t p).length = L at hd
  have hL0 : L ≠ 0 := ne_of_gt hd
  nth_rewrite 2 [← abs_of_pos hd]
  rw [← abs_mul]
  congr 1
  field_simp

/-- C21: with a live projectile at `p` with target `t` and `d = |t - p|`, one animate tick
moves it to `p + 50 (t - p) / d` when `d > 10`, keeps it live with the same mesh and
target, and leaves it at distance `|d - 50|` from the target; when `d ≤ 10` the tick
sets the live projectile to none. -/
theorem animate_moves_projectile (σ : State) (a : Asteroid) (s : ℝ)
    (h : σ.asteroid = some a) :
    (10 < Vec3.distanceTo a.target a.position →
      ∃ b : Asteroid, (animate σ s).asteroid = some b ∧ b.mesh = a.mesh ∧
        b.target = a.target ∧
        b.position =
          ⟨a.position.x + 50 * (a.target.x - a.position.x)
              / Vec3.distanceTo a.target a.position,
            a.position.y + 50 * (a.target.y - a.position.y)
              / Vec3.distanceTo a.target a.position,
            a.position.z + 50 * (a.target.z - a.position.z)
              / Vec3.distanceTo a.target a.position⟩ ∧
        Vec3.distanceTo b.target b.position
          = |Vec3.distanceTo a.target a.position - 50|) ∧
    (Vec3.distanceTo a.target a.position ≤ 10 → (animate σ s).asteroid = none) := by
  constructor
  · intro hd
    have hpos : 0 < Vec3.distanceTo a.target a.position := by linarith
    refine ⟨_, animate_far σ a s h hd, rfl, rfl, ?_, distance_after_step _ _ hpos⟩
    simp only [Vec3.distanceTo] at hpos ⊢
    rw [Vec3.normalize_of_pos _ hpos]
    generalize (Vec3.subVectors a.target a.position).length = L at hpos
    have hL0 : L ≠ 0 := ne_of_gt hpos
    simp only [Vec3.add, Vec3.multiplyScalar, Vec3.subVectors, Vec3.mk.injEq]
    refine ⟨?_, ?_, ?_⟩ <;> field_simp <;> ring
  · exact animate_near σ a s h

/-- The projectile of a launch with the waypoint at `(0, 0, 1000)` and the camera at
`(0, 0, 6025)`: it starts at `(0, 0, 1025)`. -/
theorem launch_at_25 :
    (launch stateClicked ⟨0, 0, 6025⟩ 10).asteroid
      = some ⟨⟨5, ObjKind.asteroid⟩, ⟨0, 0, 1025⟩, ⟨0, 0, 1000⟩⟩ := by
  rw [launch_zaxis stateClicked _ _ 1000 6025 10 stateClicked_waypoint (by norm_num),
    stateClicked_frame.2.1]
  norm_num [abs_of_neg]

theorem distance_at_25 :
    Vec3.distanceTo (⟨0, 0, 1000⟩ : Vec3) ⟨0, 0, 1025⟩ = 25 := by
  norm_num [Vec3.distanceTo, Vec3.subVectors, Vec3.length_zaxis, abs_of_neg]

/-- C21 at the projectile 25 away from its target: one tick leaves it live, again 25
away, on the other side of the target. -/
theorem animate_moves_projectile_witness :
    ∃ b : Asteroid,
      (animate (launch stateClicked ⟨0, 0, 6025⟩ 10) 10).asteroid = some b ∧
      b.target = ⟨0, 0, 1000⟩ ∧ Vec3.distanceTo b.target b.position = 25 := by
  obtain ⟨b, h1, -, h3, -, h5⟩ :=
    (animate_moves_projectile (launch stateClicked ⟨0, 0, 6025⟩ 10)
      ⟨⟨5, ObjKind.asteroid⟩, ⟨0, 0, 1025⟩, ⟨0, 0, 1000⟩⟩ 10 launch_at_25).1
      (by rw [distance_at_25]; norm_num)
  refine ⟨b, h1, h3, ?_⟩
  rw [h5, distance_at_25]
  norm_num [abs_of_neg]

/-! ## The longitude sign of the variants (C22) -/

/-- C22: for every non-zero point, `posToLatLon` of `main copy 3.js` and `main copy 4.js`
returns the latitude that `posToLatLon` of `main.js` returns, and the negated longitude:
`-atan2(z, x)` against `atan2(z, x)`, in degrees. -/
theorem posToLatLon4_negates_lon (p : Vec3) (_hp : p ≠ Vec3.zero) :
    (posToLatLon4 p).lat = (posToLatLon p).lat ∧
    (posToLatLon4 p).lon = -(posToLatLon p).lon ∧
    (posToLatLon p).lon = radToDeg (atan2 p.z p.x) ∧
    (posToLatLon4 p).lon = -radToDeg (atan2 p.z p.x) :=
  ⟨rfl, rfl, rfl, rfl⟩

/-- C22 at the point `(0, 0, 1000)`, of longitude 90 in `main.js` and -90 in
`main copy 4.js`. -/
theorem posToLatLon4_negates_lon_witness :
    (posToLatLon4 ⟨0, 0, 1000⟩).lat = (posToLatLon ⟨0, 0, 1000⟩).lat ∧
    (posToLatLon4 ⟨0, 0, 1000⟩).lon = -(posToLatLon ⟨0, 0, 1000⟩).lon := by
  obtain ⟨h1, h2, -, -⟩ :=
    posToLatLon4_negates_lon ⟨0, 0, 1000⟩ (by simp [Vec3.zero, Vec3.mk.injEq])
  exact ⟨h1, h2⟩

end

end Earth
